import Mathlib

/-!
Shallow embedding of the DeliveryBridge API (delivery-tool-service).

The HTTP route handlers of the service are modelled as pure functions over an
explicit database state `DB`.  Each handler mirrors, statement for statement,
the corresponding Express handler in the source: ownership lookups via
`findFirst`, the computed update-data records, and the write statements.
Write statements that the source wraps in `prisma.$transaction` run through
`execTxn`; write statements the source issues as separate awaited calls run
through `execSeq`.  Both executors take an optional failure point so that
rollback behaviour is observable.  Timestamps are abstract `Nat` instants
passed in as `now`; generated row ids come from a `nextId` counter.
-/

namespace DeliveryBridge

/-- StopStatus enum from the Prisma schema. -/
inductive StopStatus where
  | PENDING | ARRIVED | COMPLETED | SKIPPED | ATTEMPTED
  deriving DecidableEq, Repr

/-- PackageStatus enum from the Prisma schema. -/
inductive PackageStatus where
  | PENDING | SCANNED_IN | OUT_FOR_DELIVERY | DELIVERED | RETURNED | DAMAGED
  deriving DecidableEq, Repr

/-- RouteStatus enum from the Prisma schema. -/
inductive RouteStatus where
  | ASSIGNED | IN_PROGRESS | COMPLETED | CANCELLED
  deriving DecidableEq, Repr

/-- UserRole enum from the Prisma schema. -/
inductive UserRole where
  | WORKER | HUB_ADMIN | SUPER_ADMIN
  deriving DecidableEq, Repr

/-- HubRole enum from the Prisma schema. -/
inductive HubRole where
  | DRIVER | DISPATCHER | MANAGER | OWNER
  deriving DecidableEq, Repr

/-- User row (the columns the modelled handlers touch). -/
structure User where
  id : Nat
  email : String
  passwordHash : String
  firstName : String
  lastName : String
  phone : Option String := none
  role : UserRole := .WORKER
  isPremium : Bool := false
  deriving DecidableEq, Repr

/-- Session row. -/
structure Session where
  id : Nat
  userId : Nat
  token : String
  expiresAt : Nat
  deriving DecidableEq, Repr

/-- DeliveryPlatform catalog row. -/
structure DeliveryPlatform where
  id : Nat
  name : String
  slug : String
  isActive : Bool := true
  deriving DecidableEq, Repr

/-- PlatformLink row: join of User and DeliveryPlatform, unique per pair. -/
structure PlatformLink where
  id : Nat
  userId : Nat
  platformId : Nat
  displayName : Option String := none
  username : Option String := none
  isActive : Bool := true
  deriving DecidableEq, Repr

/-- Route row with its denormalized counters. -/
structure Route where
  id : Nat
  userId : Nat
  platformLinkId : Option Nat := none
  name : String
  date : Nat := 0
  notes : Option String := none
  status : RouteStatus := .ASSIGNED
  totalStops : Int := 0
  completedStops : Int := 0
  totalPackages : Int := 0
  deliveredPackages : Int := 0
  startedAt : Option Nat := none
  completedAt : Option Nat := none
  deriving DecidableEq, Repr

/-- Stop row. -/
structure Stop where
  id : Nat
  routeId : Nat
  address : String
  city : Option String := none
  state : Option String := none
  zipCode : Option String := none
  sequence : Int
  status : StopStatus := .PENDING
  arrivedAt : Option Nat := none
  completedAt : Option Nat := none
  notes : Option String := none
  proofPhotoUrl : Option String := none
  deriving DecidableEq, Repr

/-- Package row. -/
structure Package where
  id : Nat
  routeId : Nat
  stopId : Option Nat := none
  trackingNumber : String
  barcode : Option String := none
  recipientName : Option String := none
  status : PackageStatus := .PENDING
  scannedAt : Option Nat := none
  deliveredAt : Option Nat := none
  notes : Option String := none
  deriving DecidableEq, Repr

/-- Hub row. -/
structure Hub where
  id : Nat
  name : String
  address : Option String := none
  city : Option String := none
  state : Option String := none
  zip : Option String := none
  phone : Option String := none
  isActive : Bool := true
  deriving DecidableEq, Repr

/-- HubMembership row, unique on userId. -/
structure HubMembership where
  id : Nat
  userId : Nat
  hubId : Nat
  role : HubRole
  joinedAt : Nat := 0
  deriving DecidableEq, Repr

/-- The database state: one list per table plus an id generator. -/
structure DB where
  users : List User := []
  sessions : List Session := []
  platforms : List DeliveryPlatform := []
  platformLinks : List PlatformLink := []
  routes : List Route := []
  stops : List Stop := []
  packages : List Package := []
  hubs : List Hub := []
  hubMemberships : List HubMembership := []
  nextId : Nat := 0
  deriving DecidableEq, Repr

/-- The AppError taxonomy from lib/errors.ts: an HTTP status code and message. -/
structure AppError where
  statusCode : Nat
  message : String
  deriving DecidableEq, Repr

def AppError.notFound (message : String := "Resource not found") : AppError :=
  ⟨404, message⟩

def AppError.conflict (message : String) : AppError :=
  ⟨409, message⟩

def AppError.unauthorized (message : String := "Authentication required") : AppError :=
  ⟨401, message⟩

def AppError.forbidden (message : String := "Insufficient permissions") : AppError :=
  ⟨403, message⟩

/-- What the errorHandler middleware answers for a non-AppError exception. -/
def internalError : AppError := ⟨500, "Internal server error"⟩

/-- `prisma.route.findFirst(\x7b where: \x7b id, userId \x7d \x7d)` — ownership check. -/
def findRoute (db : DB) (routeId userId : Nat) : Option Route :=
  db.routes.find? (fun r => r.id == routeId && r.userId == userId)

/-- `prisma.stop.findFirst(\x7b where: \x7b id, routeId \x7d \x7d)`. -/
def findStop (db : DB) (stopId routeId : Nat) : Option Stop :=
  db.stops.find? (fun s => s.id == stopId && s.routeId == routeId)

/-- `prisma.package.findFirst(\x7b where: \x7b id, routeId \x7d \x7d)`. -/
def findPackage (db : DB) (packageId routeId : Nat) : Option Package :=
  db.packages.find? (fun p => p.id == packageId && p.routeId == routeId)

/-- `prisma.package.findFirst(\x7b where: \x7b routeId, barcode \x7d \x7d)`. -/
def findPackageByBarcode (db : DB) (routeId : Nat) (barcode : String) : Option Package :=
  db.packages.find? (fun p => p.routeId == routeId && p.barcode == some barcode)

/-- A single row write; handlers collect these and run them through an executor. -/
abbrev Write := DB → DB

/-- Apply every write in order (the failure-free path). -/
def applyWrites (ws : List Write) (db : DB) : DB :=
  ws.foldl (fun d w => w d) db

/-- Run writes inside `prisma.$transaction`: a failure at any point rolls the
whole batch back. Returns the post-state and whether the batch committed. -/
def execTxn (ws : List Write) (failAt : Option Nat) (db : DB) : DB × Bool :=
  match failAt with
  | none => (applyWrites ws db, true)
  | some _ => (db, false)

/-- Run writes as separate awaited statements with no surrounding transaction:
a failure at step `k` leaves the first `k` writes committed. -/
def execSeq (ws : List Write) (failAt : Option Nat) (db : DB) : DB × Bool :=
  match failAt with
  | none => (applyWrites ws db, true)
  | some k => (applyWrites (ws.take k) db, false)

/-- A handler outcome: the HTTP-level result (or error) plus the final state. -/
abbrev HandlerOut (α : Type) := Except AppError α × DB

-- ━━━ PATCH /api/routes/:id/stops/:stopId (part_013 lines 221-264) ━━━

/-- Request body of the stop status PATCH. -/
structure StopPatchBody where
  status : StopStatus
  notes : Option String := none
  proofPhotoUrl : Option String := none
  deriving DecidableEq, Repr

/-- The `stopData` update record: `none` in an optional field means the field
is absent from the update and the row keeps its current value. -/
structure StopData where
  status : StopStatus
  notes : Option String
  proofPhotoUrl : Option String
  arrivedAt : Option Nat
  completedAt : Option Nat
  deriving DecidableEq, Repr

/-- `tx.stop.update(\x7b data: stopData \x7d)` applied to one row. -/
def applyStopData (d : StopData) (s : Stop) : Stop :=
  { s with
    status := d.status
    notes := match d.notes with | some n => some n | none => s.notes
    proofPhotoUrl := match d.proofPhotoUrl with | some u => some u | none => s.proofPhotoUrl
    arrivedAt := match d.arrivedAt with | some t => some t | none => s.arrivedAt
    completedAt := match d.completedAt with | some t => some t | none => s.completedAt }

/-- The stopData record the handler builds from the body and the row found. -/
def mkStopData (body : StopPatchBody) (existingStop : Stop) (now : Nat) : StopData :=
  { status := body.status
    notes := body.notes
    proofPhotoUrl := body.proofPhotoUrl
    arrivedAt :=
      if body.status = StopStatus.ARRIVED ∧ existingStop.arrivedAt = none then some now else none
    completedAt :=
      if body.status = StopStatus.COMPLETED ∧ existingStop.completedAt = none
      then some now else none }

/-- The two writes of the stop status PATCH transaction: the stop update and,
iff the stop transitions into COMPLETED, the completedStops increment. -/
def updateStopWrites (stopId routeId : Nat) (stopData : StopData)
    (existingStop : Stop) : List Write :=
  [fun db =>
    { db with stops := db.stops.map fun s => if s.id == stopId then applyStopData stopData s else s }]
  ++
  (if stopData.status = StopStatus.COMPLETED ∧ existingStop.status ≠ StopStatus.COMPLETED then
    [fun db =>
      { db with routes := db.routes.map fun r =>
          if r.id == routeId then { r with completedStops := r.completedStops + 1 } else r }]
  else [])

/-- Handler of PATCH /api/routes/:id/stops/:stopId. -/
def updateStopStatus (userId routeId stopId : Nat) (body : StopPatchBody) (now : Nat)
    (failAt : Option Nat) (db : DB) : HandlerOut Stop :=
  match findRoute db routeId userId with
  | none => (.error (AppError.notFound "Route not found"), db)
  | some _ =>
    match findStop db stopId routeId with
    | none => (.error (AppError.notFound "Stop not found"), db)
    | some existingStop =>
      let stopData := mkStopData body existingStop now
      match execTxn (updateStopWrites stopId routeId stopData existingStop) failAt db with
      | (dbAfter, true) => (.ok (applyStopData stopData existingStop), dbAfter)
      | (dbAfter, false) => (.error internalError, dbAfter)

-- ━━━ POST /api/routes/:id/packages (packages.ts lines 19-56) ━━━

/-- Request body of the add-package POST. -/
structure AddPackageBody where
  trackingNumber : String
  barcode : Option String := none
  stopId : Option Nat := none
  recipientName : Option String := none
  deriving DecidableEq, Repr

/-- The two writes of the add-package transaction: the package create and the
totalPackages increment. -/
def addPackageWrites (routeId newId : Nat) (body : AddPackageBody) (now : Nat) : List Write :=
  [fun db =>
    { db with
      packages := db.packages ++
        [{ id := newId
           routeId := routeId
           stopId := body.stopId
           trackingNumber := body.trackingNumber
           barcode := body.barcode
           recipientName := body.recipientName
           status := PackageStatus.SCANNED_IN
           scannedAt := some now }]
      nextId := db.nextId + 1 },
   fun db =>
    { db with routes := db.routes.map fun r =>
        if r.id == routeId then { r with totalPackages := r.totalPackages + 1 } else r }]

/-- Handler of POST /api/routes/:id/packages. -/
def addPackage (userId routeId : Nat) (body : AddPackageBody) (now : Nat)
    (failAt : Option Nat) (db : DB) : HandlerOut Package :=
  match findRoute db routeId userId with
  | none => (.error (AppError.notFound "Route not found"), db)
  | some _ =>
    match body.stopId with
    | some sid =>
      match findStop db sid routeId with
      | none => (.error (AppError.notFound "Stop not found on this route"), db)
      | some _ => addPackageTxn userId routeId body now failAt db
    | none => addPackageTxn userId routeId body now failAt db
where
  /-- The `prisma.$transaction` block of the handler. -/
  addPackageTxn (_userId routeId : Nat) (body : AddPackageBody) (now : Nat)
      (failAt : Option Nat) (db : DB) : HandlerOut Package :=
    let newId := db.nextId
    match execTxn (addPackageWrites routeId newId body now) failAt db with
    | (dbAfter, true) =>
      (.ok { id := newId
             routeId := routeId
             stopId := body.stopId
             trackingNumber := body.trackingNumber
             barcode := body.barcode
             recipientName := body.recipientName
             status := PackageStatus.SCANNED_IN
             scannedAt := some now }, dbAfter)
    | (dbAfter, false) => (.error internalError, dbAfter)

-- ━━━ POST /api/routes/:id/packages/scan (packages.ts lines 58-109) ━━━

/-- The SCAN_PROGRESSION lookup table: current status to next status, absent
for statuses outside the table. -/
def SCAN_PROGRESSION : PackageStatus → Option PackageStatus
  | PackageStatus.SCANNED_IN => some PackageStatus.OUT_FOR_DELIVERY
  | PackageStatus.OUT_FOR_DELIVERY => some PackageStatus.DELIVERED
  | _ => none

/-- The `updateData` record of the scan handler. -/
structure ScanData where
  status : PackageStatus
  deliveredAt : Option Nat
  deriving DecidableEq, Repr

/-- `tx.package.update(\x7b data: updateData \x7d)` applied to one row. -/
def applyScanData (d : ScanData) (p : Package) : Package :=
  { p with
    status := d.status
    deliveredAt := match d.deliveredAt with | some t => some t | none => p.deliveredAt }

/-- The writes of the scan transaction: the package update and, iff this call
delivers the package, the deliveredPackages increment. -/
def scanWrites (routeId : Nat) (pkgId : Nat) (d : ScanData) (isDelivering : Bool) : List Write :=
  [fun db =>
    { db with packages := db.packages.map fun p =>
        if p.id == pkgId then applyScanData d p else p }]
  ++
  (if isDelivering then
    [fun db =>
      { db with routes := db.routes.map fun r =>
          if r.id == routeId then { r with deliveredPackages := r.deliveredPackages + 1 } else r }]
  else [])

/-- Handler of POST /api/routes/:id/packages/scan. -/
def scanPackage (userId routeId : Nat) (barcode : String) (now : Nat)
    (failAt : Option Nat) (db : DB) : HandlerOut Package :=
  match findRoute db routeId userId with
  | none => (.error (AppError.notFound "Route not found"), db)
  | some _ =>
    match findPackageByBarcode db routeId barcode with
    | none => (.error (AppError.notFound "Package with that barcode not found in this route"), db)
    | some existing =>
      let nextStatus := (SCAN_PROGRESSION existing.status).getD existing.status
      let isDelivering :=
        nextStatus = PackageStatus.DELIVERED ∧ existing.status ≠ PackageStatus.DELIVERED
      let updateData : ScanData :=
        { status := nextStatus, deliveredAt := if isDelivering then some now else none }
      match execTxn (scanWrites routeId existing.id updateData isDelivering) failAt db with
      | (dbAfter, true) => (.ok (applyScanData updateData existing), dbAfter)
      | (dbAfter, false) => (.error internalError, dbAfter)

-- ━━━ PATCH /api/routes/:id/packages/:packageId (packages.ts lines 111-163) ━━━

/-- Request body of the package status PATCH. -/
structure PackagePatchBody where
  status : PackageStatus
  notes : Option String := none
  recipientName : Option String := none
  deriving DecidableEq, Repr

/-- The `pkgData` update record of the package status PATCH. -/
structure PackageData where
  status : PackageStatus
  notes : Option String
  recipientName : Option String
  deliveredAt : Option Nat
  deriving DecidableEq, Repr

/-- `tx.package.update(\x7b data: pkgData \x7d)` applied to one row. -/
def applyPackageData (d : PackageData) (p : Package) : Package :=
  { p with
    status := d.status
    notes := match d.notes with | some n => some n | none => p.notes
    recipientName := match d.recipientName with | some n => some n | none => p.recipientName
    deliveredAt := match d.deliveredAt with | some t => some t | none => p.deliveredAt }

/-- The pkgData record the handler builds. -/
def mkPackageData (body : PackagePatchBody) (existing : Package) (now : Nat) : PackageData :=
  { status := body.status
    notes := body.notes
    recipientName := body.recipientName
    deliveredAt :=
      if body.status = PackageStatus.DELIVERED ∧ existing.status ≠ PackageStatus.DELIVERED
      then some now else none }

/-- The writes of the package status PATCH transaction. -/
def updatePackageWrites (routeId pkgId : Nat) (pkgData : PackageData)
    (isDelivering : Bool) : List Write :=
  [fun db =>
    { db with packages := db.packages.map fun p =>
        if p.id == pkgId then applyPackageData pkgData p else p }]
  ++
  (if isDelivering then
    [fun db =>
      { db with routes := db.routes.map fun r =>
          if r.id == routeId then { r with deliveredPackages := r.deliveredPackages + 1 } else r }]
  else [])

/-- Handler of PATCH /api/routes/:id/packages/:packageId. -/
def updatePackageStatus (userId routeId packageId : Nat) (body : PackagePatchBody) (now : Nat)
    (failAt : Option Nat) (db : DB) : HandlerOut Package :=
  match findRoute db routeId userId with
  | none => (.error (AppError.notFound "Route not found"), db)
  | some _ =>
    match findPackage db packageId routeId with
    | none => (.error (AppError.notFound "Package not found"), db)
    | some existing =>
      let isDelivering :=
        body.status = PackageStatus.DELIVERED ∧ existing.status ≠ PackageStatus.DELIVERED
      let pkgData := mkPackageData body existing now
      match execTxn (updatePackageWrites routeId packageId pkgData isDelivering) failAt db with
      | (dbAfter, true) => (.ok (applyPackageData pkgData existing), dbAfter)
      | (dbAfter, false) => (.error internalError, dbAfter)

-- ━━━ POST /api/routes (part_013 lines 53-93) ━━━

/-- Request body of the create-route POST. -/
structure CreateRouteBody where
  platformLinkId : Option Nat := none
  name : String
  date : Option Nat := none
  notes : Option String := none
  deriving DecidableEq, Repr

/-- Handler of POST /api/routes: a single-row create, no transaction. -/
def createRoute (userId : Nat) (body : CreateRouteBody) (now : Nat) (db : DB) :
    HandlerOut Route :=
  let mk : DB → HandlerOut Route := fun db =>
    let route : Route :=
      { id := db.nextId
        userId := userId
        platformLinkId := body.platformLinkId
        name := body.name
        date := body.date.getD now
        notes := body.notes }
    (.ok route, { db with routes := db.routes ++ [route], nextId := db.nextId + 1 })
  match body.platformLinkId with
  | some plid =>
    match db.platformLinks.find? (fun l => l.id == plid && l.userId == userId) with
    | none => (.error (AppError.notFound "Platform link not found"), db)
    | some _ => mk db
  | none => mk db

-- ━━━ GET /api/routes/:id (part_013 lines 95-121) ━━━

/-- Handler of GET /api/routes/:id (the route row of the detail response). -/
def getRoute (userId routeId : Nat) (db : DB) : Except AppError Route :=
  match findRoute db routeId userId with
  | none => .error (AppError.notFound "Route not found")
  | some route => .ok route

-- ━━━ POST /api/routes/:id/stops (part_013 lines 157-211) ━━━

/-- Request body of the add-stop POST. -/
structure AddStopBody where
  address : String
  city : Option String := none
  state : Option String := none
  zipCode : Option String := none
  sequence : Option Int := none
  deriving DecidableEq, Repr

/-- `prisma.stop.findFirst(\x7b where: \x7b routeId \x7d, orderBy: \x7b sequence: desc \x7d \x7d).sequence`:
the greatest sequence among the stops of the route, if any. -/
def maxStopSequence (db : DB) (routeId : Nat) : Option Int :=
  ((db.stops.filter (fun s => s.routeId == routeId)).map (fun s => s.sequence)).max?

/-- The two writes of the add-stop transaction. -/
def addStopWrites (routeId newId : Nat) (body : AddStopBody) (sequence : Int) : List Write :=
  [fun db =>
    { db with
      stops := db.stops ++
        [{ id := newId
           routeId := routeId
           address := body.address
           city := body.city
           state := body.state
           zipCode := body.zipCode
           sequence := sequence }]
      nextId := db.nextId + 1 },
   fun db =>
    { db with routes := db.routes.map fun r =>
        if r.id == routeId then { r with totalStops := r.totalStops + 1 } else r }]

/-- Handler of POST /api/routes/:id/stops. -/
def addStop (userId routeId : Nat) (body : AddStopBody) (failAt : Option Nat) (db : DB) :
    HandlerOut Stop :=
  match findRoute db routeId userId with
  | none => (.error (AppError.notFound "Route not found"), db)
  | some _ =>
    let sequence :=
      match body.sequence with
      | some sq => sq
      | none => (maxStopSequence db routeId).getD 0 + 1
    let newId := db.nextId
    match execTxn (addStopWrites routeId newId body sequence) failAt db with
    | (dbAfter, true) =>
      (.ok { id := newId
             routeId := routeId
             address := body.address
             city := body.city
             state := body.state
             zipCode := body.zipCode
             sequence := sequence }, dbAfter)
    | (dbAfter, false) => (.error internalError, dbAfter)

-- ━━━ POST /api/routes/:id/stops/bulk (part_013 lines 266-329) ━━━

/-- One entry of bulkStopsSchema.stops. -/
structure BulkStopInput where
  address : String
  city : Option String := none
  state : Option String := none
  zipCode : Option String := none
  deriving DecidableEq, Repr

/-- The Stop rows the bulk transaction creates: the i-th input gets sequence
`baseSequence + i` and id `baseId + i`. -/
def bulkStopRows (routeId baseId : Nat) (baseSequence : Int)
    (stopsInput : List BulkStopInput) : List Stop :=
  stopsInput.enum.map fun (i, s) =>
    { id := baseId + i
      routeId := routeId
      address := s.address
      city := s.city
      state := s.state
      zipCode := s.zipCode
      sequence := baseSequence + i }

/-- The writes of the bulk transaction: one create per input, then one
totalStops increment by the batch length. -/
def bulkAddStopsWrites (routeId baseId : Nat) (baseSequence : Int)
    (stopsInput : List BulkStopInput) : List Write :=
  (bulkStopRows routeId baseId baseSequence stopsInput).map
    (fun row => fun db => { db with stops := db.stops ++ [row], nextId := db.nextId + 1 })
  ++
  [fun db =>
    { db with routes := db.routes.map fun r =>
        if r.id == routeId then
          { r with totalStops := r.totalStops + stopsInput.length } else r }]

/-- Handler of POST /api/routes/:id/stops/bulk. -/
def bulkAddStops (userId routeId : Nat) (stopsInput : List BulkStopInput)
    (failAt : Option Nat) (db : DB) : HandlerOut (List Stop) :=
  match findRoute db routeId userId with
  | none => (.error (AppError.notFound "Route not found"), db)
  | some _ =>
    let baseSequence := (maxStopSequence db routeId).getD 0 + 1
    let baseId := db.nextId
    match execTxn (bulkAddStopsWrites routeId baseId baseSequence stopsInput) failAt db with
    | (dbAfter, true) => (.ok (bulkStopRows routeId baseId baseSequence stopsInput), dbAfter)
    | (dbAfter, false) => (.error internalError, dbAfter)

-- ━━━ Auth (auth.ts) ━━━

/-- bcrypt is an external library, out of the modelled scope; it is abstracted
as an injective tagging so that compare succeeds exactly on the hashed
password. -/
def bcryptHash (password : String) : String := "bcrypt$" ++ password

/-- `bcrypt.compare(password, hash)`. -/
def bcryptCompare (password hash : String) : Bool := bcryptHash password == hash

/-- Request body of POST /auth/register. -/
structure RegisterBody where
  email : String
  password : String
  firstName : String
  lastName : String
  phone : Option String := none
  deriving DecidableEq, Repr

/-- The session lifetime used by register and login: 7 days in milliseconds. -/
def sessionLifetime : Nat := 7 * 24 * 60 * 60 * 1000

/-- The two writes of the register handler (user create, then session create),
issued as separate awaited statements with no surrounding transaction. -/
def registerWrites (user : User) (token : String) (now : Nat) : List Write :=
  [fun db => { db with users := db.users ++ [user], nextId := db.nextId + 1 },
   fun db =>
    { db with
      sessions := db.sessions ++
        [{ id := db.nextId, userId := user.id, token := token, expiresAt := now + sessionLifetime }]
      nextId := db.nextId + 1 }]

/-- Handler of POST /auth/register. The issued token is passed in: JWT
issuance is out of the modelled scope. -/
def register (body : RegisterBody) (token : String) (now : Nat) (failAt : Option Nat)
    (db : DB) : HandlerOut (User × String) :=
  match db.users.find? (fun u => u.email == body.email) with
  | some _ => (.error (AppError.conflict "Email already registered"), db)
  | none =>
    let user : User :=
      { id := db.nextId
        email := body.email
        passwordHash := bcryptHash body.password
        firstName := body.firstName
        lastName := body.lastName
        phone := body.phone }
    match execSeq (registerWrites user token now) failAt db with
    | (dbAfter, true) => (.ok (user, token), dbAfter)
    | (dbAfter, false) => (.error internalError, dbAfter)

/-- Request body of POST /auth/login. -/
structure LoginBody where
  email : String
  password : String
  deriving DecidableEq, Repr

/-- The two writes of the login handler: prune the expired sessions of this
user, then create the new session. -/
def loginWrites (userId : Nat) (token : String) (now : Nat) : List Write :=
  [fun db =>
    { db with sessions := db.sessions.filter fun s => !(s.userId == userId && s.expiresAt < now) },
   fun db =>
    { db with
      sessions := db.sessions ++
        [{ id := db.nextId, userId := userId, token := token, expiresAt := now + sessionLifetime }]
      nextId := db.nextId + 1 }]

/-- Handler of POST /auth/login. -/
def login (body : LoginBody) (token : String) (now : Nat) (failAt : Option Nat)
    (db : DB) : HandlerOut (User × String) :=
  match db.users.find? (fun u => u.email == body.email) with
  | none => (.error (AppError.unauthorized "Invalid email or password"), db)
  | some user =>
    if bcryptCompare body.password user.passwordHash then
      match execSeq (loginWrites user.id token now) failAt db with
      | (dbAfter, true) => (.ok (user, token), dbAfter)
      | (dbAfter, false) => (.error internalError, dbAfter)
    else
      (.error (AppError.unauthorized "Invalid email or password"), db)

/-- Handler of POST /auth/logout:
`prisma.session.deleteMany(\x7b where: \x7b token \x7d \x7d)` on the presented bearer
token, answering `\x7b message: "Logged out" \x7d`. -/
def logout (token : String) (db : DB) : HandlerOut String :=
  (.ok "Logged out",
   { db with sessions := db.sessions.filter fun s => !(s.token == token) })

-- ━━━ POST /dashboard/link (dashboard.ts lines 87-131) ━━━

/-- Request body of POST /dashboard/link. -/
structure LinkPlatformBody where
  platformId : Nat
  displayName : Option String := none
  username : Option String := none
  deriving DecidableEq, Repr

/-- Handler of POST /dashboard/link: looks up the platform, then upserts the
(userId, platformId) link — update (reactivate) when it exists, create
otherwise — and answers 201 either way. An update field whose request value is
undefined is skipped. -/
def linkPlatform (userId : Nat) (body : LinkPlatformBody) (db : DB) :
    HandlerOut PlatformLink :=
  match db.platforms.find? (fun p => p.id == body.platformId) with
  | none => (.error (AppError.notFound "Platform not found"), db)
  | some _ =>
    match db.platformLinks.find?
        (fun l => l.userId == userId && l.platformId == body.platformId) with
    | some existing =>
      let updated : PlatformLink :=
        { existing with
          isActive := true
          displayName := match body.displayName with | some d => some d | none => existing.displayName
          username := match body.username with | some u => some u | none => existing.username }
      (.ok updated,
       { db with platformLinks := db.platformLinks.map fun l =>
           if l.id == existing.id then updated else l })
    | none =>
      let created : PlatformLink :=
        { id := db.nextId
          userId := userId
          platformId := body.platformId
          displayName := body.displayName
          username := body.username }
      (.ok created,
       { db with platformLinks := db.platformLinks ++ [created], nextId := db.nextId + 1 })

-- ━━━ Hubs routers: two variants are present in the source ━━━
-- Variant A (legacy) answers errors with res.status(...).json directly inside
-- try/catch; variant B throws AppError inside asyncHandler and relies on the
-- errorHandler middleware. Both are modelled as functions to the same
-- observable outcome type: HTTP status, response body, post-state.

/-- Request body of POST /hubs. -/
structure CreateHubBody where
  name : String
  address : Option String := none
  city : Option String := none
  state : Option String := none
  zip : Option String := none
  phone : Option String := none
  deriving DecidableEq, Repr

/-- Response bodies of the hubs endpoints. The identical `include`/`select`
clauses of the two variants (hub of a membership, user fields of a member) are
elided: both variants attach the same joined rows. -/
inductive HubsBody where
  | hubList (hubs : List Hub)
  | membershipRow (membership : HubMembership)
  | hubRow (hub : Hub)
  | memberList (members : List HubMembership)
  | errorMsg (msg : String)
  deriving DecidableEq, Repr

/-- Observable outcome of a hubs endpoint: status code, body, post-state. -/
abbrev HubsOut := Nat × HubsBody × DB

/-- Case-insensitive `contains` filter of Prisma. -/
def containsInsensitive (field q : String) : Bool :=
  decide (q.toLower.data <:+: field.toLower.data)

/-- The hub search query, textually identical in both variants:
active hubs whose name or city contains q case-insensitively, ordered by
name ascending, first 20. -/
def hubSearchQuery (db : DB) (q : String) : List Hub :=
  (((db.hubs.filter fun h =>
      h.isActive && (containsInsensitive h.name q || containsInsensitive (h.city.getD "") q))
    ).mergeSort (fun a b => a.name ≤ b.name)).take 20

/-- The member list query, textually identical in both variants: memberships
of the hub ordered by joinedAt ascending. -/
def hubMembersQuery (db : DB) (hubId : Nat) : List HubMembership :=
  (db.hubMemberships.filter fun m => m.hubId == hubId).mergeSort
    (fun a b => a.joinedAt ≤ b.joinedAt)

/-- The three writes of POST /hubs, identical in both variants and issued as
separate awaited statements with no surrounding transaction: hub create,
OWNER membership create, user role update to HUB_ADMIN. -/
def createHubWrites (userId : Nat) (newHub : Hub) (now : Nat) : List Write :=
  [fun db => { db with hubs := db.hubs ++ [newHub], nextId := db.nextId + 1 },
   fun db =>
    { db with
      hubMemberships := db.hubMemberships ++
        [{ id := db.nextId
           userId := userId
           hubId := newHub.id
           role := HubRole.OWNER
           joinedAt := now }]
      nextId := db.nextId + 1 },
   fun db =>
    { db with users := db.users.map fun u =>
        if u.id == userId then { u with role := UserRole.HUB_ADMIN } else u }]

/-- The Hub row POST /hubs creates from its body. -/
def mkHub (newId : Nat) (body : CreateHubBody) : Hub :=
  { id := newId
    name := body.name
    address := body.address
    city := body.city
    state := body.state
    zip := body.zip
    phone := body.phone }

namespace HubsLegacy

/-- GET /hubs/search, legacy variant. -/
def searchHubs (q : String) (db : DB) : HubsOut :=
  (200, .hubList (hubSearchQuery db q), db)

/-- GET /hubs/my, legacy variant. -/
def myHub (userId : Nat) (db : DB) : HubsOut :=
  match db.hubMemberships.find? (fun m => m.userId == userId) with
  | none => (404, .errorMsg "Not a member of any hub", db)
  | some membership => (200, .membershipRow membership, db)

/-- POST /hubs, legacy variant. -/
def createHub (userId : Nat) (body : CreateHubBody) (now : Nat) (failAt : Option Nat)
    (db : DB) : HubsOut :=
  let hub := mkHub db.nextId body
  match execSeq (createHubWrites userId hub now) failAt db with
  | (dbAfter, true) => (201, .hubRow hub, dbAfter)
  | (dbAfter, false) => (500, .errorMsg "Internal server error", dbAfter)

/-- POST /hubs/:hubId/join, legacy variant. -/
def joinHub (userId hubId : Nat) (now : Nat) (db : DB) : HubsOut :=
  match db.hubs.find? (fun h => h.id == hubId) with
  | none => (404, .errorMsg "Hub not found", db)
  | some hub =>
    match db.hubMemberships.find? (fun m => m.userId == userId) with
    | some _ => (409, .errorMsg "Already a member of a hub", db)
    | none =>
      let membership : HubMembership :=
        { id := db.nextId, userId := userId, hubId := hub.id, role := HubRole.DRIVER,
          joinedAt := now }
      (201, .membershipRow membership,
       { db with hubMemberships := db.hubMemberships ++ [membership],
                 nextId := db.nextId + 1 })

/-- GET /hubs/:hubId/members, legacy variant. -/
def listMembers (userId : Nat) (userRole : UserRole) (hubId : Nat) (db : DB) : HubsOut :=
  match db.hubMemberships.find? (fun m =>
      m.userId == userId && m.hubId == hubId &&
      (m.role == HubRole.MANAGER || m.role == HubRole.OWNER)) with
  | none =>
    if userRole ≠ UserRole.SUPER_ADMIN then (403, .errorMsg "Admin access required", db)
    else (200, .memberList (hubMembersQuery db hubId), db)
  | some _ => (200, .memberList (hubMembersQuery db hubId), db)

end HubsLegacy

namespace HubsAsync

/-- errorHandler middleware applied to a thrown AppError. -/
def renderError (e : AppError) (db : DB) : HubsOut :=
  (e.statusCode, .errorMsg e.message, db)

/-- GET /hubs/search, asyncHandler variant. -/
def searchHubs (q : String) (db : DB) : HubsOut :=
  (200, .hubList (hubSearchQuery db q), db)

/-- GET /hubs/my, asyncHandler variant. -/
def myHub (userId : Nat) (db : DB) : HubsOut :=
  match db.hubMemberships.find? (fun m => m.userId == userId) with
  | none => renderError (AppError.notFound "Not a member of any hub") db
  | some membership => (200, .membershipRow membership, db)

/-- POST /hubs, asyncHandler variant. -/
def createHub (userId : Nat) (body : CreateHubBody) (now : Nat) (failAt : Option Nat)
    (db : DB) : HubsOut :=
  let hub := mkHub db.nextId body
  match execSeq (createHubWrites userId hub now) failAt db with
  | (dbAfter, true) => (201, .hubRow hub, dbAfter)
  | (dbAfter, false) => renderError internalError dbAfter

/-- POST /hubs/:hubId/join, asyncHandler variant. -/
def joinHub (userId hubId : Nat) (now : Nat) (db : DB) : HubsOut :=
  match db.hubs.find? (fun h => h.id == hubId) with
  | none => renderError (AppError.notFound "Hub not found") db
  | some hub =>
    match db.hubMemberships.find? (fun m => m.userId == userId) with
    | some _ => renderError (AppError.conflict "Already a member of a hub") db
    | none =>
      let membership : HubMembership :=
        { id := db.nextId, userId := userId, hubId := hub.id, role := HubRole.DRIVER,
          joinedAt := now }
      (201, .membershipRow membership,
       { db with hubMemberships := db.hubMemberships ++ [membership],
                 nextId := db.nextId + 1 })

/-- GET /hubs/:hubId/members, asyncHandler variant. -/
def listMembers (userId : Nat) (userRole : UserRole) (hubId : Nat) (db : DB) : HubsOut :=
  match db.hubMemberships.find? (fun m =>
      m.userId == userId && m.hubId == hubId &&
      (m.role == HubRole.MANAGER || m.role == HubRole.OWNER)) with
  | none =>
    if userRole ≠ UserRole.SUPER_ADMIN then renderError (AppError.forbidden "Admin access required") db
    else (200, .memberList (hubMembersQuery db hubId), db)
  | some _ => (200, .memberList (hubMembersQuery db hubId), db)

end HubsAsync

-- ━━━ Counter invariant machinery ━━━

/-- Number of stops of the route whose status is COMPLETED. -/
def completedStopCount (db : DB) (routeId : Nat) : Nat :=
  (db.stops.filter fun s =>
    s.routeId == routeId && s.status == StopStatus.COMPLETED).length

/-- Number of packages of the route whose status is DELIVERED. -/
def deliveredPackageCount (db : DB) (routeId : Nat) : Nat :=
  (db.packages.filter fun p =>
    p.routeId == routeId && p.status == PackageStatus.DELIVERED).length

/-- The §3 invariant: on every route row the denormalized counters equal the
corresponding child-row counts. -/
def countersInSync (db : DB) : Prop :=
  ∀ r ∈ db.routes,
    r.completedStops = (completedStopCount db r.id : Int) ∧
    r.deliveredPackages = (deliveredPackageCount db r.id : Int)

/-- Row ids are unique per table (what `update(\x7b where: \x7b id \x7d \x7d)` assumes). -/
def uniqueIds (db : DB) : Prop :=
  (db.routes.map Route.id).Nodup ∧ (db.stops.map Stop.id).Nodup ∧
  (db.packages.map Package.id).Nodup

/-- One status-update request: the three status-mutating endpoints. -/
inductive Event where
  | stopUpd (userId routeId stopId : Nat) (body : StopPatchBody) (now : Nat)
  | pkgUpd (userId routeId packageId : Nat) (body : PackagePatchBody) (now : Nat)
  | scan (userId routeId : Nat) (barcode : String) (now : Nat)
  deriving Repr

/-- The state transition of one request (failure-free execution). -/
def applyEvent (e : Event) (db : DB) : DB :=
  match e with
  | .stopUpd userId routeId stopId body now =>
    (updateStopStatus userId routeId stopId body now none db).2
  | .pkgUpd userId routeId packageId body now =>
    (updatePackageStatus userId routeId packageId body now none db).2
  | .scan userId routeId barcode now =>
    (scanPackage userId routeId barcode now none db).2

/-- A sequence of requests, applied in order. -/
def applyEvents (es : List Event) (db : DB) : DB :=
  es.foldl (fun d e => applyEvent e d) db

/-- An event is monotone on a state when it does not move the row it targets
out of its terminal status (COMPLETED for stops, DELIVERED for packages).
Scans are always monotone: the progression maps DELIVERED to itself. -/
def eventMonotone (e : Event) (db : DB) : Bool :=
  match e with
  | .stopUpd userId routeId stopId body _ =>
    match findRoute db routeId userId, findStop db stopId routeId with
    | some _, some st =>
      !(st.status == StopStatus.COMPLETED) || (body.status == StopStatus.COMPLETED)
    | _, _ => true
  | .pkgUpd userId routeId packageId body _ =>
    match findRoute db routeId userId, findPackage db packageId routeId with
    | some _, some p =>
      !(p.status == PackageStatus.DELIVERED) || (body.status == PackageStatus.DELIVERED)
    | _, _ => true
  | .scan _ _ _ _ => true

/-- Every event of the sequence is monotone on the state it runs against. -/
def monotoneAlong : List Event → DB → Bool
  | [], _ => true
  | e :: es, db => eventMonotone e db && monotoneAlong es (applyEvent e db)

-- ━━━━━━━━━━━━━━━━━━━━━━━━ Theorems ━━━━━━━━━━━━━━━━━━━━━━━━

/-- C9: logout deletes exactly the Session rows whose token equals the
presented bearer token; every other session — the same user's other sessions
and all sessions of other users — and every other table is left unchanged. -/
theorem logout_deletes_exactly_matching_token (token : String) (db : DB) :
    (logout token db).1 = .ok "Logged out" ∧
    (logout token db).2.sessions = db.sessions.filter (fun s => !(s.token == token)) ∧
    (∀ s ∈ db.sessions, s.token ≠ token → s ∈ (logout token db).2.sessions) ∧
    (∀ s ∈ (logout token db).2.sessions, s ∈ db.sessions ∧ s.token ≠ token) ∧
    (logout token db).2.users = db.users ∧
    (logout token db).2.routes = db.routes ∧
    (logout token db).2.stops = db.stops ∧
    (logout token db).2.packages = db.packages ∧
    (logout token db).2.platformLinks = db.platformLinks ∧
    (logout token db).2.hubs = db.hubs ∧
    (logout token db).2.hubMemberships = db.hubMemberships := by
  refine ⟨rfl, rfl, ?_, ?_, rfl, rfl, rfl, rfl, rfl, rfl, rfl⟩
  · intro s hs hne
    simp only [logout, List.mem_filter]
    exact ⟨hs, by simpa using hne⟩
  · intro s hs
    simp only [logout, List.mem_filter] at hs
    exact ⟨hs.1, by simpa using hs.2⟩

/-- C10: the legacy try/catch hubs router and the asyncHandler/AppError hubs
router are observably equivalent: for every request and database state, each
of the five endpoints answers the same status code, the same body, and leaves
the same database state. -/
theorem hubs_router_variants_equivalent (q : String) (userId hubId : Nat)
    (userRole : UserRole) (body : CreateHubBody) (now : Nat) (failAt : Option Nat)
    (db : DB) :
    HubsLegacy.searchHubs q db = HubsAsync.searchHubs q db ∧
    HubsLegacy.myHub userId db = HubsAsync.myHub userId db ∧
    HubsLegacy.createHub userId body now failAt db =
      HubsAsync.createHub userId body now failAt db ∧
    HubsLegacy.joinHub userId hubId now db = HubsAsync.joinHub userId hubId now db ∧
    HubsLegacy.listMembers userId userRole hubId db =
      HubsAsync.listMembers userId userRole hubId db := by
  refine ⟨rfl, ?_, ?_, ?_, ?_⟩
  · unfold HubsLegacy.myHub HubsAsync.myHub HubsAsync.renderError
    cases db.hubMemberships.find? (fun m => m.userId == userId) <;> rfl
  · unfold HubsLegacy.createHub HubsAsync.createHub HubsAsync.renderError
    cases h : execSeq (createHubWrites userId (mkHub db.nextId body) now) failAt db with
    | mk dbAfter committed => cases committed <;> simp [internalError]
  · unfold HubsLegacy.joinHub HubsAsync.joinHub HubsAsync.renderError
    cases db.hubs.find? (fun h => h.id == hubId) with
    | none => rfl
    | some hub => cases db.hubMemberships.find? (fun m => m.userId == userId) <;> rfl
  · unfold HubsLegacy.listMembers HubsAsync.listMembers HubsAsync.renderError
    cases db.hubMemberships.find? (fun m =>
        m.userId == userId && m.hubId == hubId &&
        (m.role == HubRole.MANAGER || m.role == HubRole.OWNER)) with
    | none => by_cases h : userRole = UserRole.SUPER_ADMIN <;> simp [h, AppError.forbidden]
    | some m => rfl

/-- C7 counterexample: with an existing (user, platform) link already in the
table, POST /dashboard/link succeeds (upsert) instead of failing Conflict:
the call returns ok with the existing link reactivated, not a 409 error. -/
theorem linkPlatform_duplicate_no_conflict_counterexample :
    (linkPlatform 0
        { platformId := 0 }
        { platforms := [{ id := 0, name := "Amazon Flex", slug := "amazon-flex" }]
          platformLinks := [{ id := 1, userId := 0, platformId := 0, isActive := false }]
          nextId := 2 }).1
      = Except.ok { id := 1, userId := 0, platformId := 0, isActive := true } ∧
    (match (linkPlatform 0
        { platformId := 0 }
        { platforms := [{ id := 0, name := "Amazon Flex", slug := "amazon-flex" }]
          platformLinks := [{ id := 1, userId := 0, platformId := 0, isActive := false }]
          nextId := 2 }).1 with
      | Except.error e => e.statusCode = 409
      | Except.ok _ => False) = False := by
  constructor
  · rfl
  · simp only [linkPlatform]
    rfl

/-- C7 amended: when the user already has a PlatformLink for that platform,
POST /dashboard/link does not fail: the upsert reactivates and updates the
existing row in place, creating no new row. -/
theorem linkPlatform_duplicate_upserts (userId : Nat) (body : LinkPlatformBody) (db : DB)
    (platform : DeliveryPlatform)
    (hplat : db.platforms.find? (fun p => p.id == body.platformId) = some platform)
    (existing : PlatformLink)
    (hlink : db.platformLinks.find?
        (fun l => l.userId == userId && l.platformId == body.platformId) = some existing) :
    linkPlatform userId body db =
      (Except.ok
        { existing with
          isActive := true
          displayName :=
            match body.displayName with | some d => some d | none => existing.displayName
          username := match body.username with | some u => some u | none => existing.username },
       { db with platformLinks := db.platformLinks.map fun l =>
           if l.id == existing.id then
             { existing with
               isActive := true
               displayName :=
                 match body.displayName with | some d => some d | none => existing.displayName
               username :=
                 match body.username with | some u => some u | none => existing.username }
           else l }) ∧
    (linkPlatform userId body db).2.platformLinks.length = db.platformLinks.length ∧
    (linkPlatform userId body db).2.nextId = db.nextId := by
  refine ⟨?_, ?_, ?_⟩ <;> simp [linkPlatform, hplat, hlink]

/-- C7 witness: the amended theorem applied at a concrete state holding a
deactivated link for the pair. -/
theorem linkPlatform_duplicate_upserts_witness :
    (linkPlatform 0 { platformId := 0, displayName := some "Flex" }
      { platforms := [{ id := 0, name := "Amazon Flex", slug := "amazon-flex" }]
        platformLinks := [{ id := 1, userId := 0, platformId := 0, isActive := false }]
        nextId := 2 }).2.nextId = 2 :=
  (linkPlatform_duplicate_upserts 0 { platformId := 0, displayName := some "Flex" }
    { platforms := [{ id := 0, name := "Amazon Flex", slug := "amazon-flex" }]
      platformLinks := [{ id := 1, userId := 0, platformId := 0, isActive := false }]
      nextId := 2 }
    { id := 0, name := "Amazon Flex", slug := "amazon-flex" } (by decide)
    { id := 1, userId := 0, platformId := 0, isActive := false } (by decide)).2.2

/-- C4 counterexample: hub creation writes a Hub, a HubMembership and a User
role update as three separate statements with no transaction; a failure at the
second statement leaves the Hub row committed with no membership, so the
operation is not all-or-nothing and the caller gets a 500 with state changed. -/
theorem createHub_not_all_or_nothing_counterexample :
    (HubsAsync.createHub 0 { name := "Test Hub" } 5 (some 1)
        { users := [{ id := 0, email := "o@x.com", passwordHash := "h",
                      firstName := "A", lastName := "B" }]
          nextId := 1 }).1 = 500 ∧
    (HubsAsync.createHub 0 { name := "Test Hub" } 5 (some 1)
        { users := [{ id := 0, email := "o@x.com", passwordHash := "h",
                      firstName := "A", lastName := "B" }]
          nextId := 1 }).2.2.hubs = [{ id := 1, name := "Test Hub" }] ∧
    (HubsAsync.createHub 0 { name := "Test Hub" } 5 (some 1)
        { users := [{ id := 0, email := "o@x.com", passwordHash := "h",
                      firstName := "A", lastName := "B" }]
          nextId := 1 }).2.2.hubMemberships = [] ∧
    (HubsAsync.createHub 0 { name := "Test Hub" } 5 (some 1)
        { users := [{ id := 0, email := "o@x.com", passwordHash := "h",
                      firstName := "A", lastName := "B" }]
          nextId := 1 }).2.2 ≠
      ({ users := [{ id := 0, email := "o@x.com", passwordHash := "h",
                     firstName := "A", lastName := "B" }]
         nextId := 1 } : DB) := by
  refine ⟨rfl, rfl, rfl, by decide⟩

/-- C4 amended: the multi-row mutations that the source wraps in
prisma.$transaction — stop create, bulk stop create, package create, the two
status PATCHes and the barcode scan — are all-or-nothing: under any failure
point the post-state is either the initial state or the fully committed one.
(Hub creation, excluded here, issues its writes without a transaction.) -/
theorem txn_mutations_all_or_nothing (userId routeId stopId packageId : Nat)
    (sbody : StopPatchBody) (pbody : PackagePatchBody) (abody : AddPackageBody)
    (stbody : AddStopBody) (bulk : List BulkStopInput) (barcode : String)
    (now : Nat) (failAt : Option Nat) (db : DB) :
    ((updateStopStatus userId routeId stopId sbody now failAt db).2 = db ∨
     (updateStopStatus userId routeId stopId sbody now failAt db).2 =
       (updateStopStatus userId routeId stopId sbody now none db).2) ∧
    ((updatePackageStatus userId routeId packageId pbody now failAt db).2 = db ∨
     (updatePackageStatus userId routeId packageId pbody now failAt db).2 =
       (updatePackageStatus userId routeId packageId pbody now none db).2) ∧
    ((scanPackage userId routeId barcode now failAt db).2 = db ∨
     (scanPackage userId routeId barcode now failAt db).2 =
       (scanPackage userId routeId barcode now none db).2) ∧
    ((addPackage userId routeId abody now failAt db).2 = db ∨
     (addPackage userId routeId abody now failAt db).2 =
       (addPackage userId routeId abody now none db).2) ∧
    ((addStop userId routeId stbody failAt db).2 = db ∨
     (addStop userId routeId stbody failAt db).2 =
       (addStop userId routeId stbody none db).2) ∧
    ((bulkAddStops userId routeId bulk failAt db).2 = db ∨
     (bulkAddStops userId routeId bulk failAt db).2 =
       (bulkAddStops userId routeId bulk none db).2) := by
  cases failAt with
  | none => exact ⟨Or.inr rfl, Or.inr rfl, Or.inr rfl, Or.inr rfl, Or.inr rfl, Or.inr rfl⟩
  | some k =>
    refine ⟨?_, ?_, ?_, ?_, ?_, ?_⟩
    · left
      unfold updateStopStatus
      repeat' (first | rfl | split)
    · left
      unfold updatePackageStatus
      repeat' (first | rfl | split)
    · left
      unfold scanPackage
      repeat' (first | rfl | split)
    · left
      unfold addPackage addPackage.addPackageTxn
      repeat' (first | rfl | split)
    · left
      unfold addStop
      repeat' (first | rfl | split)
    · left
      unfold bulkAddStops
      repeat' (first | rfl | split)

/-- C5: end-to-end — register a user, create the route "Morning Run",
bulk-add 3 stops, add 2 packages, scan the first barcode twice
(SCANNED_IN to OUT_FOR_DELIVERY to DELIVERED); the route detail then shows
totalPackages=2, deliveredPackages=1, totalStops=3, completedStops=0. -/
theorem end_to_end_scenario :
    (let db1 := (register
        { email := "driver@x.com", password := "testpass123",
          firstName := "Test", lastName := "Driver" } "tok" 0 none {}).2
    let db2 := (createRoute 0 { name := "Morning Run" } 0 db1).2
    let db3 := (bulkAddStops 0 2
        [{ address := "1 Main St" }, { address := "2 Oak Ave" }, { address := "3 Pine Rd" }]
        none db2).2
    let db4 := (addPackage 0 2 { trackingNumber := "TRK1", barcode := some "PKG1" } 1 none db3).2
    let db5 := (addPackage 0 2 { trackingNumber := "TRK2", barcode := some "PKG2" } 2 none db4).2
    let db6 := (scanPackage 0 2 "PKG1" 3 none db5).2
    let db7 := (scanPackage 0 2 "PKG1" 4 none db6).2
    (getRoute 0 2 db7).toOption.map (fun r =>
      (r.totalPackages, r.deliveredPackages, r.totalStops, r.completedStops)))
      = some (2, 1, 3, 0) := by
  decide

/-- The abstract bcrypt tagging is injective, so compare fails on any
password other than the registered one. -/
theorem bcryptHash_injective (a b : String) (h : bcryptHash a = bcryptHash b) : a = b := by
  have h2 := congrArg String.data h
  simp only [bcryptHash, String.data_append] at h2
  exact String.ext (List.append_cancel_left h2)

/-- C8: registering an email that already belongs to a User answers Conflict;
login with an unknown email and login with a known email but wrong password
both answer Unauthorized with the identical response, leaking nothing about
which field was wrong. -/
theorem auth_conflict_and_uniform_unauthorized
    (db : DB) (rbody : RegisterBody) (token : String) (now : Nat) (failAt : Option Nat)
    (u : User) (hdup : db.users.find? (fun x => x.email == rbody.email) = some u)
    (lbody : LoginBody)
    (hunknown : db.users.find? (fun x => x.email == lbody.email) = none)
    (lbody2 : LoginBody) (user2 : User) (pw : String)
    (hfound : db.users.find? (fun x => x.email == lbody2.email) = some user2)
    (hhash : user2.passwordHash = bcryptHash pw) (hwrong : lbody2.password ≠ pw) :
    register rbody token now failAt db =
      (.error (AppError.conflict "Email already registered"), db) ∧
    login lbody token now failAt db =
      (.error (AppError.unauthorized "Invalid email or password"), db) ∧
    login lbody2 token now failAt db =
      (.error (AppError.unauthorized "Invalid email or password"), db) ∧
    (login lbody token now failAt db).1 = (login lbody2 token now failAt db).1 := by
  have hcmp : bcryptCompare lbody2.password user2.passwordHash = false := by
    rw [hhash]
    simp only [bcryptCompare, beq_eq_false_iff_ne, ne_eq]
    intro hc
    exact hwrong (bcryptHash_injective _ _ hc)
  refine ⟨?_, ?_, ?_, ?_⟩
  · simp [register, hdup]
  · simp [login, hunknown]
  · simp [login, hfound, hcmp]
  · simp [login, hunknown, hfound, hcmp]

/-- C8 witness: the theorem applied at a concrete two-user database. -/
theorem auth_conflict_and_uniform_unauthorized_witness :
    register { email := "a@x.com", password := "newpass123",
               firstName := "A", lastName := "B" } "tok" 0 none
      { users := [{ id := 0, email := "a@x.com", passwordHash := bcryptHash "secretpw1",
                    firstName := "A", lastName := "B" }]
        nextId := 1 }
      = (.error (AppError.conflict "Email already registered"),
         { users := [{ id := 0, email := "a@x.com", passwordHash := bcryptHash "secretpw1",
                       firstName := "A", lastName := "B" }]
           nextId := 1 }) :=
  (auth_conflict_and_uniform_unauthorized
    { users := [{ id := 0, email := "a@x.com", passwordHash := bcryptHash "secretpw1",
                  firstName := "A", lastName := "B" }]
      nextId := 1 }
    { email := "a@x.com", password := "newpass123", firstName := "A", lastName := "B" }
    "tok" 0 none
    { id := 0, email := "a@x.com", passwordHash := bcryptHash "secretpw1",
      firstName := "A", lastName := "B" }
    (by decide)
    { email := "nobody@x.com", password := "whatever1" }
    (by decide)
    { email := "a@x.com", password := "wrongpass1" }
    { id := 0, email := "a@x.com", passwordHash := bcryptHash "secretpw1",
      firstName := "A", lastName := "B" }
    "secretpw1" (by decide) rfl (by decide)).1

/-- foldl max dominates the seed and every element. -/
theorem le_foldl_max (l : List Int) (b : Int) :
    b ≤ l.foldl max b ∧ ∀ a ∈ l, a ≤ l.foldl max b := by
  induction l generalizing b with
  | nil => simp
  | cons x xs ih =>
    simp only [List.foldl_cons]
    refine ⟨le_trans (le_max_left b x) (ih (max b x)).1, ?_⟩
    intro a ha
    rcases List.mem_cons.mp ha with h | h
    · rw [h]
      exact le_trans (le_max_right b x) (ih (max b x)).1
    · exact (ih (max b x)).2 a h

/-- Every member of a list is bounded by its max?. -/
theorem le_of_max?_eq_some {l : List Int} {m a : Int} (h : l.max? = some m)
    (ha : a ∈ l) : a ≤ m := by
  cases l with
  | nil => cases ha
  | cons x xs =>
    simp only [List.max?] at h
    cases h
    rcases List.mem_cons.mp ha with h | h
    · exact h ▸ (le_foldl_max xs x).1
    · exact (le_foldl_max xs x).2 a h

/-- Appending stop rows one write at a time touches only stops and nextId. -/
theorem applyWrites_append_stops (rows : List Stop) (db : DB) :
    (applyWrites (rows.map (fun row => fun db =>
        { db with stops := db.stops ++ [row], nextId := db.nextId + 1 })) db).stops
      = db.stops ++ rows ∧
    (applyWrites (rows.map (fun row => fun db =>
        { db with stops := db.stops ++ [row], nextId := db.nextId + 1 })) db).routes
      = db.routes := by
  induction rows generalizing db with
  | nil => simp [applyWrites]
  | cons r rs ih =>
    simp only [List.map_cons, applyWrites, List.foldl_cons]
    have := ih { db with stops := db.stops ++ [r], nextId := db.nextId + 1 }
    simpa [applyWrites, List.append_assoc] using this

/-- The sequences assigned by a bulk batch are contiguous from the base. -/
theorem bulkStopRows_map_sequence (routeId baseId : Nat) (base : Int)
    (bulk : List BulkStopInput) :
    (bulkStopRows routeId baseId base bulk).map Stop.sequence
      = (List.range bulk.length).map (fun (i : Nat) => base + (i : Int)) := by
  unfold bulkStopRows
  rw [List.map_map]
  have h1 : (Stop.sequence ∘ fun (p : Nat × BulkStopInput) =>
      ({ id := baseId + p.1, routeId := routeId, address := p.2.address, city := p.2.city,
         state := p.2.state, zipCode := p.2.zipCode, sequence := base + p.1 } : Stop))
      = (fun (i : Nat) => base + (i : Int)) ∘ Prod.fst := rfl
  rw [h1, ← List.map_map, List.enum_map_fst]

/-- Effect of the whole bulk write batch on the stops and routes tables. -/
theorem applyWrites_bulk (routeId baseId : Nat) (base : Int) (bulk : List BulkStopInput)
    (db : DB) :
    (applyWrites (bulkAddStopsWrites routeId baseId base bulk) db).stops
      = db.stops ++ bulkStopRows routeId baseId base bulk ∧
    (applyWrites (bulkAddStopsWrites routeId baseId base bulk) db).routes
      = db.routes.map fun r =>
          if r.id == routeId then { r with totalStops := r.totalStops + (bulk.length : Int) }
          else r := by
  have h := applyWrites_append_stops (bulkStopRows routeId baseId base bulk) db
  simp only [applyWrites] at h ⊢
  simp only [bulkAddStopsWrites, List.foldl_append, List.foldl_cons, List.foldl_nil]
  refine ⟨h.1, ?_⟩
  simp only [h.2]

/-- C6: with sequence omitted, addStop appends a Stop carrying the max
existing sequence of the route plus one (strictly above every existing stop
of the route) and bumps totalStops by one inside the same all-or-nothing
transaction; bulkAddStops assigns contiguous sequences from the current max
plus one and bumps totalStops by the batch size in one transaction. -/
theorem addStop_sequence_and_counter (userId routeId : Nat) (body : AddStopBody)
    (bulk : List BulkStopInput) (db : DB) (route : Route)
    (hroute : findRoute db routeId userId = some route)
    (hseq : body.sequence = none) :
    (addStop userId routeId body none db).1 =
      .ok { id := db.nextId, routeId := routeId, address := body.address, city := body.city,
            state := body.state, zipCode := body.zipCode,
            sequence := (maxStopSequence db routeId).getD 0 + 1 } ∧
    (∀ s ∈ db.stops, s.routeId = routeId →
      s.sequence < (maxStopSequence db routeId).getD 0 + 1) ∧
    (addStop userId routeId body none db).2.stops =
      db.stops ++ [{ id := db.nextId, routeId := routeId, address := body.address,
                     city := body.city, state := body.state, zipCode := body.zipCode,
                     sequence := (maxStopSequence db routeId).getD 0 + 1 }] ∧
    (addStop userId routeId body none db).2.routes =
      db.routes.map (fun r =>
        if r.id == routeId then { r with totalStops := r.totalStops + 1 } else r) ∧
    (∀ k, (addStop userId routeId body (some k) db).2 = db) ∧
    (bulkAddStops userId routeId bulk none db).1 =
      .ok (bulkStopRows routeId db.nextId ((maxStopSequence db routeId).getD 0 + 1) bulk) ∧
    ((bulkStopRows routeId db.nextId ((maxStopSequence db routeId).getD 0 + 1) bulk).map
        Stop.sequence
      = (List.range bulk.length).map
          (fun (i : Nat) => (maxStopSequence db routeId).getD 0 + 1 + (i : Int))) ∧
    (bulkAddStops userId routeId bulk none db).2.stops =
      db.stops ++ bulkStopRows routeId db.nextId ((maxStopSequence db routeId).getD 0 + 1) bulk ∧
    (bulkAddStops userId routeId bulk none db).2.routes =
      db.routes.map (fun r =>
        if r.id == routeId then { r with totalStops := r.totalStops + bulk.length } else r) ∧
    (∀ k, (bulkAddStops userId routeId bulk (some k) db).2 = db) := by
  refine ⟨?_, ?_, ?_, ?_, ?_, ?_, ?_, ?_, ?_, ?_⟩
  · simp [addStop, hroute, hseq, execTxn, applyWrites, addStopWrites]
  · intro s hs hsr
    have hmem : s.sequence ∈ (db.stops.filter (fun t => t.routeId == routeId)).map
        (fun t => t.sequence) :=
      List.mem_map_of_mem _ (List.mem_filter.mpr ⟨hs, by simp [hsr]⟩)
    cases hmax : maxStopSequence db routeId with
    | none =>
      exfalso
      have : ((db.stops.filter (fun t => t.routeId == routeId)).map
          (fun t => t.sequence)) = [] := by
        simpa [maxStopSequence, List.max?_eq_none_iff] using hmax
      rw [this] at hmem
      cases hmem
    | some m =>
      have := le_of_max?_eq_some (hmax ▸ rfl : ((db.stops.filter
          (fun t => t.routeId == routeId)).map (fun t => t.sequence)).max? = some m) hmem
      simp only [Option.getD_some]
      omega
  · simp [addStop, hroute, hseq, execTxn, applyWrites, addStopWrites]
  · simp [addStop, hroute, hseq, execTxn, applyWrites, addStopWrites]
  · intro k
    simp [addStop, hroute, hseq, execTxn]
  · simp [bulkAddStops, hroute, execTxn]
  · exact bulkStopRows_map_sequence routeId db.nextId
      ((maxStopSequence db routeId).getD 0 + 1) bulk
  · simp only [bulkAddStops, hroute, execTxn]
    exact (applyWrites_bulk routeId db.nextId
      ((maxStopSequence db routeId).getD 0 + 1) bulk db).1
  · simp only [bulkAddStops, hroute, execTxn]
    exact (applyWrites_bulk routeId db.nextId
      ((maxStopSequence db routeId).getD 0 + 1) bulk db).2
  · intro k
    simp [bulkAddStops, hroute, execTxn]

/-- C6 witness: the theorem applied at a route that already has a stop with
sequence 5; the appended stop gets sequence 6. -/
theorem addStop_sequence_and_counter_witness :
    (addStop 0 0 { address := "9 New St" } none
        { routes := [{ id := 0, userId := 0, name := "R", totalStops := 1 }]
          stops := [{ id := 1, routeId := 0, address := "Old", sequence := 5 }]
          nextId := 2 }).1
      = .ok { id := 2, routeId := 0, address := "9 New St", sequence := 6 } :=
  (addStop_sequence_and_counter 0 0 { address := "9 New St" } []
    { routes := [{ id := 0, userId := 0, name := "R", totalStops := 1 }]
      stops := [{ id := 1, routeId := 0, address := "Old", sequence := 5 }]
      nextId := 2 }
    { id := 0, userId := 0, name := "R", totalStops := 1 }
    (by decide) rfl).1

/-- An id-targeted row update whose data fixes the targeted row is the
identity on a table with unique ids. -/
theorem map_ite_id_of_fix {l : List Package} (hn : (l.map Package.id).Nodup)
    {p : Package} (hp : p ∈ l) (f : Package → Package) (hf : f p = p) :
    (l.map fun q => if q.id == p.id then f q else q) = l := by
  have hcong : ∀ q ∈ l, (if q.id == p.id then f q else q) = q := by
    intro q hq
    by_cases hid : q.id = p.id
    · have hqp : q = p := List.inj_on_of_nodup_map hn hq hp hid
      subst hqp
      simp [hf]
    · simp [hid]
  calc (l.map fun q => if q.id == p.id then f q else q)
      = l.map id := List.map_congr_left (by simpa using hcong)
    _ = l := List.map_id l

/-- C2: scanning a barcode unknown to the route fails NotFound; a known
barcode advances the package exactly one step along the SCAN_PROGRESSION
table (identity for statuses outside the table), is a no-op once DELIVERED,
and sets deliveredAt and bumps deliveredPackages exactly on the transition
into DELIVERED (i.e. exactly when the previous status was OUT_FOR_DELIVERY). -/
theorem scanPackage_progression (userId routeId : Nat) (barcode : String) (now : Nat)
    (db : DB) (route : Route) (hroute : findRoute db routeId userId = some route)
    (hnodup : (db.packages.map Package.id).Nodup) :
    (findPackageByBarcode db routeId barcode = none →
      scanPackage userId routeId barcode now none db =
        (.error (AppError.notFound "Package with that barcode not found in this route"), db)) ∧
    (∀ p, findPackageByBarcode db routeId barcode = some p →
      ((scanPackage userId routeId barcode now none db).1 =
        .ok { p with
              status := (SCAN_PROGRESSION p.status).getD p.status
              deliveredAt :=
                if p.status = PackageStatus.OUT_FOR_DELIVERY then some now
                else p.deliveredAt } ∧
       (p.status = PackageStatus.DELIVERED →
         scanPackage userId routeId barcode now none db = (.ok p, db)) ∧
       (scanPackage userId routeId barcode now none db).2.routes =
         (if p.status = PackageStatus.OUT_FOR_DELIVERY then
            db.routes.map (fun r => if r.id == routeId then
              { r with deliveredPackages := r.deliveredPackages + 1 } else r)
          else db.routes))) := by
  constructor
  · intro h
    simp [scanPackage, hroute, h]
  · intro p hp
    have hpmem : p ∈ db.packages := List.mem_of_find?_eq_some hp
    refine ⟨?_, ?_, ?_⟩
    · simp only [scanPackage, hroute, hp]
      cases hst : p.status <;>
        simp [hst, SCAN_PROGRESSION, execTxn, applyWrites, scanWrites, applyScanData]
    · intro hdel
      have hfix : applyScanData
          { status := PackageStatus.DELIVERED, deliveredAt := none } p = p := by
        cases p
        simp_all [applyScanData]
      have hmap := map_ite_id_of_fix hnodup hpmem
        (applyScanData { status := PackageStatus.DELIVERED, deliveredAt := none }) hfix
      have hmap2 : (db.packages.map fun q =>
          if q.id = p.id then
            applyScanData { status := PackageStatus.DELIVERED, deliveredAt := none } q
          else q) = db.packages := by
        simpa using hmap
      simp only [scanPackage, hroute, hp, hdel]
      simp [SCAN_PROGRESSION, execTxn, applyWrites, scanWrites, hfix, hmap2]
    · simp only [scanPackage, hroute, hp]
      cases hst : p.status <;>
        simp [hst, SCAN_PROGRESSION, execTxn, applyWrites, scanWrites]

/-- C2 witness: the theorem applied at a concrete route with one package;
an unknown barcode answers NotFound. -/
theorem scanPackage_progression_witness :
    scanPackage 0 0 "NOPE" 5 none
      { routes := [{ id := 0, userId := 0, name := "R" }]
        packages := [{ id := 1, routeId := 0, trackingNumber := "T1",
                       barcode := some "B1", status := PackageStatus.SCANNED_IN }]
        nextId := 2 }
      = (.error (AppError.notFound "Package with that barcode not found in this route"),
         { routes := [{ id := 0, userId := 0, name := "R" }]
           packages := [{ id := 1, routeId := 0, trackingNumber := "T1",
                          barcode := some "B1", status := PackageStatus.SCANNED_IN }]
           nextId := 2 }) :=
  (scanPackage_progression 0 0 "NOPE" 5
    { routes := [{ id := 0, userId := 0, name := "R" }]
      packages := [{ id := 1, routeId := 0, trackingNumber := "T1",
                     barcode := some "B1", status := PackageStatus.SCANNED_IN }]
      nextId := 2 }
    { id := 0, userId := 0, name := "R" }
    (by decide) (by decide)).1 (by decide)

/-- find? commutes with a map that preserves the predicate. -/
theorem find?_map_pred {α : Type} (l : List α) (f : α → α) (p : α → Bool)
    (hf : ∀ a, p (f a) = p a) : (l.map f).find? p = (l.find? p).map f := by
  induction l with
  | nil => rfl
  | cons x xs ih =>
    simp only [List.map_cons]
    cases hpx : p x with
    | true =>
      rw [List.find?_cons_of_pos _ (by rw [hf]; exact hpx), List.find?_cons_of_pos _ hpx]
      rfl
    | false =>
      rw [List.find?_cons_of_neg _ (by rw [hf, hpx]; simp),
        List.find?_cons_of_neg _ (by rw [hpx]; simp)]
      exact ih

/-- Re-posting the same stop body builds an update record with both
timestamp fields absent. -/
theorem mkStopData_after (sbody : StopPatchBody) (x : Stop) (t1 t2 : Nat) :
    mkStopData sbody (applyStopData (mkStopData sbody x t1) x) t2
      = { status := sbody.status, notes := sbody.notes,
          proofPhotoUrl := sbody.proofPhotoUrl, arrivedAt := none, completedAt := none } := by
  simp only [mkStopData, applyStopData]
  split_ifs <;> simp_all

/-- A stop update record with both timestamps absent and the same
status/notes/photo fields is absorbed by the preceding update. -/
theorem applyStopData_absorb (d1 d2 : StopData)
    (hst : d2.status = d1.status) (hn : d2.notes = d1.notes)
    (hp : d2.proofPhotoUrl = d1.proofPhotoUrl)
    (hA : d2.arrivedAt = none) (hC : d2.completedAt = none) (a : Stop) :
    applyStopData d2 (applyStopData d1 a) = applyStopData d1 a := by
  simp only [applyStopData, hst, hn, hp, hA, hC]
  cases d1.notes <;> cases d1.proofPhotoUrl <;> simp

/-- Re-posting the same package body builds an update record with the
deliveredAt field absent. -/
theorem mkPackageData_after (pbody : PackagePatchBody) (x : Package) (t1 t2 : Nat) :
    mkPackageData pbody (applyPackageData (mkPackageData pbody x t1) x) t2
      = { status := pbody.status, notes := pbody.notes,
          recipientName := pbody.recipientName, deliveredAt := none } := by
  simp only [mkPackageData, applyPackageData]
  split_ifs <;> simp_all

/-- A package update record with deliveredAt absent and the same remaining
fields is absorbed by the preceding update. -/
theorem applyPackageData_absorb (d1 d2 : PackageData)
    (hst : d2.status = d1.status) (hn : d2.notes = d1.notes)
    (hr : d2.recipientName = d1.recipientName) (hD : d2.deliveredAt = none) (a : Package) :
    applyPackageData d2 (applyPackageData d1 a) = applyPackageData d1 a := by
  simp only [applyPackageData, hst, hn, hr, hD]
  cases d1.notes <;> cases d1.recipientName <;> simp

/-- A stop update whose record carries no timestamps and whose remaining
fields already hold on the row fixes the row. -/
theorem applyStopData_fix (d : StopData) (a : Stop) (hst : a.status = d.status)
    (hA : d.arrivedAt = none) (hC : d.completedAt = none)
    (hn : ∀ n, d.notes = some n → a.notes = some n)
    (hp : ∀ u, d.proofPhotoUrl = some u → a.proofPhotoUrl = some u) :
    applyStopData d a = a := by
  cases a
  simp only [applyStopData, hA, hC]
  cases hdn : d.notes <;> cases hdp : d.proofPhotoUrl <;>
    simp_all

/-- A package update whose record carries no deliveredAt and whose remaining
fields already hold on the row fixes the row. -/
theorem applyPackageData_fix (d : PackageData) (a : Package) (hst : a.status = d.status)
    (hD : d.deliveredAt = none)
    (hn : ∀ n, d.notes = some n → a.notes = some n)
    (hr : ∀ u, d.recipientName = some u → a.recipientName = some u) :
    applyPackageData d a = a := by
  cases a
  simp only [applyPackageData, hD]
  cases hdn : d.notes <;> cases hdr : d.recipientName <;>
    simp_all

/-- Core of stop idempotency: posting a status the targeted rows already
carry (with timestamps already stamped on the found row) is a no-op. -/
theorem updateStopStatus_noop (userId routeId stopId : Nat) (sbody : StopPatchBody)
    (t2 : Nat) (db1 : DB) (r1 : Route) (x2 : Stop)
    (hr2 : findRoute db1 routeId userId = some r1)
    (hs2 : findStop db1 stopId routeId = some x2)
    (hrows : ∀ a ∈ db1.stops, a.id = stopId →
      a.status = sbody.status ∧
      (∀ n, sbody.notes = some n → a.notes = some n) ∧
      (∀ u, sbody.proofPhotoUrl = some u → a.proofPhotoUrl = some u))
    (hx2arr : sbody.status = StopStatus.ARRIVED → x2.arrivedAt ≠ none)
    (hx2com : sbody.status = StopStatus.COMPLETED → x2.completedAt ≠ none) :
    updateStopStatus userId routeId stopId sbody t2 none db1 = (.ok x2, db1) := by
  have hx2mem : x2 ∈ db1.stops := List.mem_of_find?_eq_some (by simpa [findStop] using hs2)
  have hx2pred := List.find?_some (show db1.stops.find?
      (fun s => s.id == stopId && s.routeId == routeId) = some x2 by
    simpa [findStop] using hs2)
  have hx2id : x2.id = stopId := by
    simp only [Bool.and_eq_true, beq_iff_eq] at hx2pred
    exact hx2pred.1
  obtain ⟨hx2st, hx2n, hx2p⟩ := hrows x2 hx2mem hx2id
  have hdA : (mkStopData sbody x2 t2).arrivedAt = none := by
    simp only [mkStopData]
    split_ifs with h
    · exact absurd h.2 (hx2arr h.1)
    · rfl
  have hdC : (mkStopData sbody x2 t2).completedAt = none := by
    simp only [mkStopData]
    split_ifs with h
    · exact absurd h.2 (hx2com h.1)
    · rfl
  have hfix : applyStopData (mkStopData sbody x2 t2) x2 = x2 :=
    applyStopData_fix _ _ (by simpa [mkStopData] using hx2st) hdA hdC
      (by simpa [mkStopData] using hx2n) (by simpa [mkStopData] using hx2p)
  have hinc2 : ¬(sbody.status = StopStatus.COMPLETED ∧
      x2.status ≠ StopStatus.COMPLETED) := by
    rintro ⟨h1, h2⟩
    exact h2 (hx2st.trans h1)
  have hmap : (db1.stops.map fun q =>
      if q.id == stopId then applyStopData (mkStopData sbody x2 t2) q else q) = db1.stops := by
    have hcong : ∀ q ∈ db1.stops,
        (if q.id == stopId then applyStopData (mkStopData sbody x2 t2) q else q) = q := by
      intro q hq
      by_cases hid : q.id = stopId
      · obtain ⟨h1, h2, h3⟩ := hrows q hq hid
        simp only [hid, beq_self_eq_true, if_true]
        exact applyStopData_fix _ _ (by simpa [mkStopData] using h1) hdA hdC
          (by simpa [mkStopData] using h2) (by simpa [mkStopData] using h3)
      · simp [hid]
    calc (db1.stops.map fun q =>
          if q.id == stopId then applyStopData (mkStopData sbody x2 t2) q else q)
        = db1.stops.map id := List.map_congr_left (by simpa using hcong)
      _ = db1.stops := List.map_id db1.stops
  have hst' : (mkStopData sbody x2 t2).status = sbody.status := rfl
  simp only [updateStopStatus, hr2, hs2, execTxn, updateStopWrites, hst', hinc2,
    if_false, ite_false, List.append_nil, applyWrites, List.foldl_cons, List.foldl_nil,
    hfix, hmap]

/-- Core of package idempotency: posting a status the targeted rows already
carry (with deliveredAt already stamped on the found row when DELIVERED) is a
no-op. -/
theorem updatePackageStatus_noop (userId routeId packageId : Nat)
    (pbody : PackagePatchBody) (t2 : Nat) (db1 : DB) (r1 : Route) (x2 : Package)
    (hr2 : findRoute db1 routeId userId = some r1)
    (hs2 : findPackage db1 packageId routeId = some x2)
    (hrows : ∀ a ∈ db1.packages, a.id = packageId →
      a.status = pbody.status ∧
      (∀ n, pbody.notes = some n → a.notes = some n) ∧
      (∀ u, pbody.recipientName = some u → a.recipientName = some u)) :
    updatePackageStatus userId routeId packageId pbody t2 none db1 = (.ok x2, db1) := by
  have hx2mem : x2 ∈ db1.packages :=
    List.mem_of_find?_eq_some (by simpa [findPackage] using hs2)
  have hx2pred := List.find?_some (show db1.packages.find?
      (fun p => p.id == packageId && p.routeId == routeId) = some x2 by
    simpa [findPackage] using hs2)
  have hx2id : x2.id = packageId := by
    simp only [Bool.and_eq_true, beq_iff_eq] at hx2pred
    exact hx2pred.1
  obtain ⟨hx2st, hx2n, hx2r⟩ := hrows x2 hx2mem hx2id
  have hdD : (mkPackageData pbody x2 t2).deliveredAt = none := by
    simp only [mkPackageData]
    split_ifs with h
    · exact absurd (hx2st.trans h.1) h.2
    · rfl
  have hfix : applyPackageData (mkPackageData pbody x2 t2) x2 = x2 :=
    applyPackageData_fix _ _ (by simpa [mkPackageData] using hx2st) hdD
      (by simpa [mkPackageData] using hx2n) (by simpa [mkPackageData] using hx2r)
  have hinc2 : ¬(pbody.status = PackageStatus.DELIVERED ∧
      x2.status ≠ PackageStatus.DELIVERED) := by
    rintro ⟨h1, h2⟩
    exact h2 (hx2st.trans h1)
  have hmap : (db1.packages.map fun q =>
      if q.id == packageId then applyPackageData (mkPackageData pbody x2 t2) q else q)
        = db1.packages := by
    have hcong : ∀ q ∈ db1.packages,
        (if q.id == packageId then applyPackageData (mkPackageData pbody x2 t2) q else q)
          = q := by
      intro q hq
      by_cases hid : q.id = packageId
      · obtain ⟨h1, h2, h3⟩ := hrows q hq hid
        simp only [hid, beq_self_eq_true, if_true]
        exact applyPackageData_fix _ _ (by simpa [mkPackageData] using h1) hdD
          (by simpa [mkPackageData] using h2) (by simpa [mkPackageData] using h3)
      · simp [hid]
    calc (db1.packages.map fun q =>
          if q.id == packageId then applyPackageData (mkPackageData pbody x2 t2) q else q)
        = db1.packages.map id := List.map_congr_left (by simpa using hcong)
      _ = db1.packages := List.map_id db1.packages
  simp only [updatePackageStatus, hr2, hs2, execTxn, updatePackageWrites, hinc2,
    decide_False, Bool.false_eq_true, if_false, ite_false, List.append_nil, applyWrites,
    List.foldl_cons, List.foldl_nil, hfix, hmap]

/-- C3: re-posting the same stop or package status is idempotent — the second
call answers the same response and leaves the state of the first call
untouched: timestamps are stamped on first entry only and counters are
incremented once, not twice. -/
theorem repost_same_status_idempotent (userId routeId stopId packageId : Nat)
    (sbody : StopPatchBody) (pbody : PackagePatchBody) (t1 t2 : Nat) (db : DB) :
    updateStopStatus userId routeId stopId sbody t2 none
        (updateStopStatus userId routeId stopId sbody t1 none db).2
      = updateStopStatus userId routeId stopId sbody t1 none db ∧
    updatePackageStatus userId routeId packageId pbody t2 none
        (updatePackageStatus userId routeId packageId pbody t1 none db).2
      = updatePackageStatus userId routeId packageId pbody t1 none db := by
  constructor
  · cases hr : findRoute db routeId userId with
    | none => simp [updateStopStatus, hr]
    | some r =>
      cases hs : findStop db stopId routeId with
      | none => simp [updateStopStatus, hr, hs]
      | some x =>
        have hsx : db.stops.find? (fun s => s.id == stopId && s.routeId == routeId)
            = some x := by simpa [findStop] using hs
        have hxid : (x.id == stopId) = true := by
          have h := List.find?_some hsx
          rw [Bool.and_eq_true] at h
          exact h.1
        have hxid2 : x.id = stopId := by simpa using hxid
        have hpS : ∀ a : Stop,
            ((fun s => s.id == stopId && s.routeId == routeId)
              ((fun q => if q.id == stopId then
                  applyStopData (mkStopData sbody x t1) q else q) a))
            = (fun s => s.id == stopId && s.routeId == routeId) a := by
          intro a
          by_cases h0 : (a.id == stopId) = true <;> simp [h0, applyStopData]
        have hs2 : (db.stops.map (fun q => if q.id == stopId then
              applyStopData (mkStopData sbody x t1) q else q)).find?
              (fun s => s.id == stopId && s.routeId == routeId)
            = some (applyStopData (mkStopData sbody x t1) x) := by
          rw [find?_map_pred _ _ _ hpS, hsx]
          simp [hxid2]
        have hrows : ∀ a ∈ db.stops.map (fun q => if q.id == stopId then
              applyStopData (mkStopData sbody x t1) q else q), a.id = stopId →
            a.status = sbody.status ∧
            (∀ n, sbody.notes = some n → a.notes = some n) ∧
            (∀ u, sbody.proofPhotoUrl = some u → a.proofPhotoUrl = some u) := by
          intro a ha hid
          obtain ⟨a0, ha0, rfl⟩ := List.mem_map.mp ha
          by_cases h0 : (a0.id == stopId) = true
          · refine ⟨by simp [h0, applyStopData, mkStopData], ?_, ?_⟩
            · intro n hn
              simp [h0, applyStopData, mkStopData, hn]
            · intro u hu
              simp [h0, applyStopData, mkStopData, hu]
          · exfalso
            simp only [h0, Bool.false_eq_true, if_false, ite_false] at hid
            exact h0 (by simpa using hid)
        have hx2arr : sbody.status = StopStatus.ARRIVED →
            (applyStopData (mkStopData sbody x t1) x).arrivedAt ≠ none := by
          intro hA
          cases hxa : x.arrivedAt <;> simp [applyStopData, mkStopData, hA, hxa]
        have hx2com : sbody.status = StopStatus.COMPLETED →
            (applyStopData (mkStopData sbody x t1) x).completedAt ≠ none := by
          intro hC
          cases hxc : x.completedAt <;> simp [applyStopData, mkStopData, hC, hxc]
        have hst1 : (mkStopData sbody x t1).status = sbody.status := rfl
        by_cases hinc : sbody.status = StopStatus.COMPLETED ∧
            x.status ≠ StopStatus.COMPLETED
        · have h1 : updateStopStatus userId routeId stopId sbody t1 none db
              = (.ok (applyStopData (mkStopData sbody x t1) x),
                 { db with
                   stops := db.stops.map (fun q => if q.id == stopId then
                     applyStopData (mkStopData sbody x t1) q else q)
                   routes := db.routes.map (fun rr => if rr.id == routeId then
                     { rr with completedStops := rr.completedStops + 1 } else rr) }) := by
            simp only [updateStopStatus, hr, hs, execTxn, updateStopWrites, hst1, hinc.1,
              hinc.2, ne_eq, not_false_eq_true, and_self, and_true, true_and, if_true,
              ite_true, applyWrites, List.cons_append, List.nil_append,
              List.foldl_cons, List.foldl_nil]
          have hpR : ∀ a : Route,
              ((fun rr => rr.id == routeId && rr.userId == userId)
                ((fun rr => if rr.id == routeId then
                  { rr with completedStops := rr.completedStops + 1 } else rr) a))
              = (fun rr => rr.id == routeId && rr.userId == userId) a := by
            intro a
            by_cases h0 : (a.id == routeId) = true <;> simp [h0]
          have hr2 : (db.routes.map (fun rr => if rr.id == routeId then
                { rr with completedStops := rr.completedStops + 1 } else rr)).find?
                (fun rr => rr.id == routeId && rr.userId == userId)
              = some ((fun rr => if rr.id == routeId then
                { rr with completedStops := rr.completedStops + 1 } else rr) r) := by
            rw [find?_map_pred _ _ _ hpR,
              show db.routes.find? (fun rr => rr.id == routeId && rr.userId == userId)
                = some r by simpa [findRoute] using hr]
            rfl
          rw [h1]
          exact updateStopStatus_noop userId routeId stopId sbody t2 _ _ _ hr2 hs2 hrows
            hx2arr hx2com
        · have h1 : updateStopStatus userId routeId stopId sbody t1 none db
              = (.ok (applyStopData (mkStopData sbody x t1) x),
                 { db with
                   stops := db.stops.map (fun q => if q.id == stopId then
                     applyStopData (mkStopData sbody x t1) q else q) }) := by
            simp only [updateStopStatus, hr, hs, execTxn, updateStopWrites, hst1, hinc,
              if_false, ite_false, List.append_nil, applyWrites,
              List.foldl_cons, List.foldl_nil]
          have hr2 : findRoute
              { db with
                stops := db.stops.map (fun q => if q.id == stopId then
                  applyStopData (mkStopData sbody x t1) q else q) } routeId userId
              = some r := hr
          rw [h1]
          exact updateStopStatus_noop userId routeId stopId sbody t2 _ _ _ hr2 hs2 hrows
            hx2arr hx2com
  · cases hr : findRoute db routeId userId with
    | none => simp [updatePackageStatus, hr]
    | some r =>
      cases hs : findPackage db packageId routeId with
      | none => simp [updatePackageStatus, hr, hs]
      | some x =>
        have hsx : db.packages.find? (fun p => p.id == packageId && p.routeId == routeId)
            = some x := by simpa [findPackage] using hs
        have hxid : (x.id == packageId) = true := by
          have h := List.find?_some hsx
          rw [Bool.and_eq_true] at h
          exact h.1
        have hxid2 : x.id = packageId := by simpa using hxid
        have hpP : ∀ a : Package,
            ((fun p => p.id == packageId && p.routeId == routeId)
              ((fun q => if q.id == packageId then
                  applyPackageData (mkPackageData pbody x t1) q else q) a))
            = (fun p => p.id == packageId && p.routeId == routeId) a := by
          intro a
          by_cases h0 : (a.id == packageId) = true <;> simp [h0, applyPackageData]
        have hs2 : (db.packages.map (fun q => if q.id == packageId then
              applyPackageData (mkPackageData pbody x t1) q else q)).find?
              (fun p => p.id == packageId && p.routeId == routeId)
            = some (applyPackageData (mkPackageData pbody x t1) x) := by
          rw [find?_map_pred _ _ _ hpP, hsx]
          simp [hxid2]
        have hrows : ∀ a ∈ db.packages.map (fun q => if q.id == packageId then
              applyPackageData (mkPackageData pbody x t1) q else q), a.id = packageId →
            a.status = pbody.status ∧
            (∀ n, pbody.notes = some n → a.notes = some n) ∧
            (∀ u, pbody.recipientName = some u → a.recipientName = some u) := by
          intro a ha hid
          obtain ⟨a0, ha0, rfl⟩ := List.mem_map.mp ha
          by_cases h0 : (a0.id == packageId) = true
          · refine ⟨by simp [h0, applyPackageData, mkPackageData], ?_, ?_⟩
            · intro n hn
              simp [h0, applyPackageData, mkPackageData, hn]
            · intro u hu
              simp [h0, applyPackageData, mkPackageData, hu]
          · exfalso
            simp only [h0, Bool.false_eq_true, if_false, ite_false] at hid
            exact h0 (by simpa using hid)
        have hst1 : (mkPackageData pbody x t1).status = pbody.status := rfl
        by_cases hinc : pbody.status = PackageStatus.DELIVERED ∧
            x.status ≠ PackageStatus.DELIVERED
        · have h1 : updatePackageStatus userId routeId packageId pbody t1 none db
              = (.ok (applyPackageData (mkPackageData pbody x t1) x),
                 { db with
                   packages := db.packages.map (fun q => if q.id == packageId then
                     applyPackageData (mkPackageData pbody x t1) q else q)
                   routes := db.routes.map (fun rr => if rr.id == routeId then
                     { rr with deliveredPackages := rr.deliveredPackages + 1 } else rr) }) := by
            simp only [updatePackageStatus, hr, hs, execTxn, updatePackageWrites, hst1, hinc.1,
              hinc.2, ne_eq, not_false_eq_true, and_self, and_true, true_and, decide_True,
              if_true, ite_true, applyWrites, List.cons_append, List.nil_append,
              List.foldl_cons, List.foldl_nil]
          have hpR : ∀ a : Route,
              ((fun rr => rr.id == routeId && rr.userId == userId)
                ((fun rr => if rr.id == routeId then
                  { rr with deliveredPackages := rr.deliveredPackages + 1 } else rr) a))
              = (fun rr => rr.id == routeId && rr.userId == userId) a := by
            intro a
            by_cases h0 : (a.id == routeId) = true <;> simp [h0]
          have hr2 : (db.routes.map (fun rr => if rr.id == routeId then
                { rr with deliveredPackages := rr.deliveredPackages + 1 } else rr)).find?
                (fun rr => rr.id == routeId && rr.userId == userId)
              = some ((fun rr => if rr.id == routeId then
                { rr with deliveredPackages := rr.deliveredPackages + 1 } else rr) r) := by
            rw [find?_map_pred _ _ _ hpR,
              show db.routes.find? (fun rr => rr.id == routeId && rr.userId == userId)
                = some r by simpa [findRoute] using hr]
            rfl
          rw [h1]
          exact updatePackageStatus_noop userId routeId packageId pbody t2 _ _ _ hr2 hs2 hrows
        · have h1 : updatePackageStatus userId routeId packageId pbody t1 none db
              = (.ok (applyPackageData (mkPackageData pbody x t1) x),
                 { db with
                   packages := db.packages.map (fun q => if q.id == packageId then
                     applyPackageData (mkPackageData pbody x t1) q else q) }) := by
            simp only [updatePackageStatus, hr, hs, execTxn, updatePackageWrites, hst1, hinc,
              decide_False, Bool.false_eq_true, if_false, ite_false, List.append_nil,
              applyWrites, List.foldl_cons, List.foldl_nil]
          have hr2 : findRoute
              { db with
                packages := db.packages.map (fun q => if q.id == packageId then
                  applyPackageData (mkPackageData pbody x t1) q else q) } routeId userId
              = some r := hr
          rw [h1]
          exact updatePackageStatus_noop userId routeId packageId pbody t2 _ _ _ hr2 hs2 hrows

/-- Updating the unique row with a given key shifts a countP by the change on
that one row: old count plus the indicator of the new row equals new count
plus the indicator of the old row. -/
theorem countP_map_ite_key {α : Type} (key : α → Nat) (tid : Nat) (f : α → α) (p : α → Bool)
    (l : List α) (hn : (l.map key).Nodup) (x : α) (hx : x ∈ l) (hkey : key x = tid) :
    (l.map fun a => if key a == tid then f a else a).countP p + (if p x then 1 else 0)
      = l.countP p + (if p (f x) then 1 else 0) := by
  induction l with
  | nil => cases hx
  | cons a t ih =>
    simp only [List.map_cons, List.nodup_cons] at hn
    by_cases hat : key a = tid
    · have hxa : x = a := by
        rcases List.mem_cons.mp hx with h | h
        · exact h
        · exact absurd (show key a ∈ List.map key t by
            rw [hat, ← hkey]; exact List.mem_map_of_mem key h) hn.1
      subst hxa
      have htail : (t.map fun b => if key b == tid then f b else b) = t := by
        have hcong : ∀ b ∈ t, (if key b == tid then f b else b) = b := by
          intro b hb
          have : key b ≠ tid := by
            intro hbt
            exact hn.1 (by rw [hat, ← hbt]; exact List.mem_map_of_mem key hb)
          simp [this]
        calc (t.map fun b => if key b == tid then f b else b)
            = t.map id := List.map_congr_left (by simpa using hcong)
          _ = t := List.map_id t
      simp only [List.map_cons, List.countP_cons, hat, beq_self_eq_true, if_true,
        ite_true, htail]
      omega
    · have hxt : x ∈ t := by
        rcases List.mem_cons.mp hx with h | h
        · exact absurd (h ▸ hkey) hat
        · exact h
      have hihx := ih hn.2 hxt
      have hhead : (if key a == tid then f a else a) = a := by simp [hat]
      simp only [List.map_cons, List.countP_cons, hhead]
      omega

/-- An id-targeted row update leaves the multiset of keys unchanged. -/
theorem map_key_map_ite {α : Type} (key : α → Nat) (tid : Nat) (f : α → α)
    (hkf : ∀ a, key (f a) = key a) (l : List α) :
    ((l.map fun a => if key a == tid then f a else a).map key) = l.map key := by
  rw [List.map_map]
  refine List.map_congr_left ?_
  intro a _
  show key (if (key a == tid) = true then f a else a) = key a
  by_cases h : (key a == tid) = true
  · rw [if_pos h]
    exact hkf a
  · rw [if_neg h]

/-- A stop status update that does not move the stop out of COMPLETED
preserves the counter invariant, and always preserves key uniqueness. -/
theorem updateStopStatus_preserves (userId routeId stopId : Nat) (body : StopPatchBody)
    (now : Nat) (db : DB) (hids : uniqueIds db) (hsync : countersInSync db)
    (hmono : findRoute db routeId userId ≠ none → ∀ x, findStop db stopId routeId = some x →
      x.status = StopStatus.COMPLETED → body.status = StopStatus.COMPLETED) :
    countersInSync (updateStopStatus userId routeId stopId body now none db).2 ∧
    uniqueIds (updateStopStatus userId routeId stopId body now none db).2 := by
  cases hr : findRoute db routeId userId with
  | none =>
    simp only [updateStopStatus, hr]
    exact ⟨hsync, hids⟩
  | some r =>
    cases hs : findStop db stopId routeId with
    | none =>
      simp only [updateStopStatus, hr, hs]
      exact ⟨hsync, hids⟩
    | some x =>
      have hsx : db.stops.find? (fun s => s.id == stopId && s.routeId == routeId)
          = some x := by simpa [findStop] using hs
      have hxmem : x ∈ db.stops := List.mem_of_find?_eq_some hsx
      have hpred := List.find?_some hsx
      rw [Bool.and_eq_true] at hpred
      have hxid : x.id = stopId := by simpa using hpred.1
      have hxrid : x.routeId = routeId := by simpa using hpred.2
      have hmono' := hmono (by rw [hr]; exact fun h => Option.noConfusion h) x hs
      have hcnt : ∀ rid : Nat,
          (db.stops.map fun s => if s.id == stopId then
              applyStopData (mkStopData body x now) s else s).countP
            (fun s => s.routeId == rid && s.status == StopStatus.COMPLETED)
          + (if (x.routeId == rid && x.status == StopStatus.COMPLETED) = true then 1 else 0)
          = db.stops.countP
              (fun s => s.routeId == rid && s.status == StopStatus.COMPLETED)
          + (if (x.routeId == rid && body.status == StopStatus.COMPLETED) = true
             then 1 else 0) := by
        intro rid
        exact countP_map_ite_key Stop.id stopId (applyStopData (mkStopData body x now))
          (fun s => s.routeId == rid && s.status == StopStatus.COMPLETED)
          db.stops hids.2.1 x hxmem hxid
      have hst1 : (mkStopData body x now).status = body.status := rfl
      by_cases hinc : body.status = StopStatus.COMPLETED ∧
          x.status ≠ StopStatus.COMPLETED
      · have h1 : updateStopStatus userId routeId stopId body now none db
            = (.ok (applyStopData (mkStopData body x now) x),
               { db with
                 stops := db.stops.map (fun q => if q.id == stopId then
                   applyStopData (mkStopData body x now) q else q)
                 routes := db.routes.map (fun rr => if rr.id == routeId then
                   { rr with completedStops := rr.completedStops + 1 } else rr) }) := by
          simp only [updateStopStatus, hr, hs, execTxn, updateStopWrites, hst1, hinc.1,
            hinc.2, ne_eq, not_false_eq_true, and_self, and_true, true_and, if_true,
            ite_true, applyWrites, List.cons_append, List.nil_append,
            List.foldl_cons, List.foldl_nil]
        rw [h1]
        constructor
        · intro r' hr'
          obtain ⟨r0, hr0, rfl⟩ := List.mem_map.mp hr'
          obtain ⟨hc0, hd0⟩ := hsync r0 hr0
          by_cases h0 : (r0.id == routeId) = true
          · have h0' : r0.id = routeId := by simpa using h0
            rw [if_pos h0]
            constructor
            · show r0.completedStops + 1 =
                (((db.stops.map (fun q => if q.id == stopId then
                    applyStopData (mkStopData body x now) q else q)).filter
                  (fun s => s.routeId == r0.id &&
                    s.status == StopStatus.COMPLETED)).length : Int)
              have hx0 : (x.routeId == r0.id && x.status == StopStatus.COMPLETED)
                  = false := by
                simp [hxrid, h0', hinc.2]
              have hx1 : (x.routeId == r0.id && body.status == StopStatus.COMPLETED)
                  = true := by
                simp [hxrid, h0', hinc.1]
              have hcc := hcnt r0.id
              rw [hx0, hx1] at hcc
              simp only [Bool.false_eq_true, if_false, if_true, ite_false, ite_true] at hcc
              rw [← List.countP_eq_length_filter]
              have hc0' : r0.completedStops =
                  (db.stops.countP (fun s => s.routeId == r0.id &&
                    s.status == StopStatus.COMPLETED) : Int) := by
                simpa [completedStopCount, ← List.countP_eq_length_filter] using hc0
              omega
            · show r0.deliveredPackages =
                ((db.packages.filter (fun p => p.routeId == r0.id &&
                  p.status == PackageStatus.DELIVERED)).length : Int)
              simpa [deliveredPackageCount] using hd0
          · have h0' : r0.id ≠ routeId := by simpa using h0
            rw [if_neg h0]
            constructor
            · show r0.completedStops =
                (((db.stops.map (fun q => if q.id == stopId then
                    applyStopData (mkStopData body x now) q else q)).filter
                  (fun s => s.routeId == r0.id &&
                    s.status == StopStatus.COMPLETED)).length : Int)
              have hx0 : (x.routeId == r0.id && x.status == StopStatus.COMPLETED)
                  = false := by
                simp [hxrid, Ne.symm h0']
              have hx1 : (x.routeId == r0.id && body.status == StopStatus.COMPLETED)
                  = false := by
                simp [hxrid, Ne.symm h0']
              have hcc := hcnt r0.id
              rw [hx0, hx1] at hcc
              simp only [Bool.false_eq_true, if_false, if_true, ite_false, ite_true] at hcc
              rw [← List.countP_eq_length_filter]
              have hc0' : r0.completedStops =
                  (db.stops.countP (fun s => s.routeId == r0.id &&
                    s.status == StopStatus.COMPLETED) : Int) := by
                simpa [completedStopCount, ← List.countP_eq_length_filter] using hc0
              omega
            · show r0.deliveredPackages =
                ((db.packages.filter (fun p => p.routeId == r0.id &&
                  p.status == PackageStatus.DELIVERED)).length : Int)
              simpa [deliveredPackageCount] using hd0
        · refine ⟨?_, ?_, hids.2.2⟩
          · show ((db.routes.map (fun rr => if rr.id == routeId then
                { rr with completedStops := rr.completedStops + 1 } else rr)).map
                Route.id).Nodup
            rw [map_key_map_ite Route.id routeId
              (fun rr => { rr with completedStops := rr.completedStops + 1 })
              (fun a => rfl) db.routes]
            exact hids.1
          · show ((db.stops.map (fun q => if q.id == stopId then
                applyStopData (mkStopData body x now) q else q)).map Stop.id).Nodup
            rw [map_key_map_ite Stop.id stopId
              (applyStopData (mkStopData body x now)) (fun a => rfl) db.stops]
            exact hids.2.1
      · have h1 : updateStopStatus userId routeId stopId body now none db
            = (.ok (applyStopData (mkStopData body x now) x),
               { db with
                 stops := db.stops.map (fun q => if q.id == stopId then
                   applyStopData (mkStopData body x now) q else q) }) := by
          simp only [updateStopStatus, hr, hs, execTxn, updateStopWrites, hst1, hinc,
            if_false, ite_false, List.append_nil, applyWrites,
            List.foldl_cons, List.foldl_nil]
        have hstatus_eq : (x.status == StopStatus.COMPLETED)
            = (body.status == StopStatus.COMPLETED) := by
          by_cases hbs : body.status = StopStatus.COMPLETED
          · have hxs : x.status = StopStatus.COMPLETED := by
              by_contra hxs
              exact hinc ⟨hbs, hxs⟩
            simp [hbs, hxs]
          · have hxs : x.status ≠ StopStatus.COMPLETED := fun h => hbs (hmono' h)
            simp [hbs, hxs]
        rw [h1]
        constructor
        · intro r' hr'
          obtain ⟨hc0, hd0⟩ := hsync r' hr'
          constructor
          · show r'.completedStops =
              (((db.stops.map (fun q => if q.id == stopId then
                  applyStopData (mkStopData body x now) q else q)).filter
                (fun s => s.routeId == r'.id &&
                  s.status == StopStatus.COMPLETED)).length : Int)
            have hcc := hcnt r'.id
            rw [hstatus_eq] at hcc
            rw [← List.countP_eq_length_filter]
            have hc0' : r'.completedStops =
                (db.stops.countP (fun s => s.routeId == r'.id &&
                  s.status == StopStatus.COMPLETED) : Int) := by
              simpa [completedStopCount, ← List.countP_eq_length_filter] using hc0
            omega
          · show r'.deliveredPackages =
              ((db.packages.filter (fun p => p.routeId == r'.id &&
                p.status == PackageStatus.DELIVERED)).length : Int)
            simpa [deliveredPackageCount] using hd0
        · refine ⟨hids.1, ?_, hids.2.2⟩
          show ((db.stops.map (fun q => if q.id == stopId then
              applyStopData (mkStopData body x now) q else q)).map Stop.id).Nodup
          rw [map_key_map_ite Stop.id stopId
            (applyStopData (mkStopData body x now)) (fun a => rfl) db.stops]
          exact hids.2.1

/-- A package status update that does not move the package out of DELIVERED
preserves the counter invariant, and always preserves key uniqueness. -/
theorem updatePackageStatus_preserves (userId routeId packageId : Nat)
    (body : PackagePatchBody) (now : Nat) (db : DB)
    (hids : uniqueIds db) (hsync : countersInSync db)
    (hmono : findRoute db routeId userId ≠ none →
      ∀ x, findPackage db packageId routeId = some x →
      x.status = PackageStatus.DELIVERED → body.status = PackageStatus.DELIVERED) :
    countersInSync (updatePackageStatus userId routeId packageId body now none db).2 ∧
    uniqueIds (updatePackageStatus userId routeId packageId body now none db).2 := by
  cases hr : findRoute db routeId userId with
  | none =>
    simp only [updatePackageStatus, hr]
    exact ⟨hsync, hids⟩
  | some r =>
    cases hs : findPackage db packageId routeId with
    | none =>
      simp only [updatePackageStatus, hr, hs]
      exact ⟨hsync, hids⟩
    | some x =>
      have hsx : db.packages.find? (fun p => p.id == packageId && p.routeId == routeId)
          = some x := by simpa [findPackage] using hs
      have hxmem : x ∈ db.packages := List.mem_of_find?_eq_some hsx
      have hpred := List.find?_some hsx
      rw [Bool.and_eq_true] at hpred
      have hxid : x.id = packageId := by simpa using hpred.1
      have hxrid : x.routeId = routeId := by simpa using hpred.2
      have hmono' := hmono (by rw [hr]; exact fun h => Option.noConfusion h) x hs
      have hcnt : ∀ rid : Nat,
          (db.packages.map fun p => if p.id == packageId then
              applyPackageData (mkPackageData body x now) p else p).countP
            (fun p => p.routeId == rid && p.status == PackageStatus.DELIVERED)
          + (if (x.routeId == rid && x.status == PackageStatus.DELIVERED) = true
             then 1 else 0)
          = db.packages.countP
              (fun p => p.routeId == rid && p.status == PackageStatus.DELIVERED)
          + (if (x.routeId == rid && body.status == PackageStatus.DELIVERED) = true
             then 1 else 0) := by
        intro rid
        exact countP_map_ite_key Package.id packageId
          (applyPackageData (mkPackageData body x now))
          (fun p => p.routeId == rid && p.status == PackageStatus.DELIVERED)
          db.packages hids.2.2 x hxmem hxid
      have hst1 : (mkPackageData body x now).status = body.status := rfl
      by_cases hinc : body.status = PackageStatus.DELIVERED ∧
          x.status ≠ PackageStatus.DELIVERED
      · have h1 : updatePackageStatus userId routeId packageId body now none db
            = (.ok (applyPackageData (mkPackageData body x now) x),
               { db with
                 packages := db.packages.map (fun q => if q.id == packageId then
                   applyPackageData (mkPackageData body x now) q else q)
                 routes := db.routes.map (fun rr => if rr.id == routeId then
                   { rr with deliveredPackages := rr.deliveredPackages + 1 } else rr) }) := by
          simp only [updatePackageStatus, hr, hs, execTxn, updatePackageWrites, hst1, hinc.1,
            hinc.2, ne_eq, not_false_eq_true, and_self, and_true, true_and, decide_True,
            if_true, ite_true, applyWrites, List.cons_append, List.nil_append,
            List.foldl_cons, List.foldl_nil]
        rw [h1]
        constructor
        · intro r' hr'
          obtain ⟨r0, hr0, rfl⟩ := List.mem_map.mp hr'
          obtain ⟨hc0, hd0⟩ := hsync r0 hr0
          by_cases h0 : (r0.id == routeId) = true
          · have h0' : r0.id = routeId := by simpa using h0
            rw [if_pos h0]
            constructor
            · show r0.completedStops =
                ((db.stops.filter (fun s => s.routeId == r0.id &&
                  s.status == StopStatus.COMPLETED)).length : Int)
              simpa [completedStopCount] using hc0
            · show r0.deliveredPackages + 1 =
                (((db.packages.map (fun q => if q.id == packageId then
                    applyPackageData (mkPackageData body x now) q else q)).filter
                  (fun p => p.routeId == r0.id &&
                    p.status == PackageStatus.DELIVERED)).length : Int)
              have hx0 : (x.routeId == r0.id && x.status == PackageStatus.DELIVERED)
                  = false := by
                simp [hxrid, h0', hinc.2]
              have hx1 : (x.routeId == r0.id && body.status == PackageStatus.DELIVERED)
                  = true := by
                simp [hxrid, h0', hinc.1]
              have hcc := hcnt r0.id
              rw [hx0, hx1] at hcc
              simp only [Bool.false_eq_true, if_false, if_true, ite_false, ite_true] at hcc
              rw [← List.countP_eq_length_filter]
              have hd0' : r0.deliveredPackages =
                  (db.packages.countP (fun p => p.routeId == r0.id &&
                    p.status == PackageStatus.DELIVERED) : Int) := by
                simpa [deliveredPackageCount, ← List.countP_eq_length_filter] using hd0
              omega
          · have h0' : r0.id ≠ routeId := by simpa using h0
            rw [if_neg h0]
            constructor
            · show r0.completedStops =
                ((db.stops.filter (fun s => s.routeId == r0.id &&
                  s.status == StopStatus.COMPLETED)).length : Int)
              simpa [completedStopCount] using hc0
            · show r0.deliveredPackages =
                (((db.packages.map (fun q => if q.id == packageId then
                    applyPackageData (mkPackageData body x now) q else q)).filter
                  (fun p => p.routeId == r0.id &&
                    p.status == PackageStatus.DELIVERED)).length : Int)
              have hx0 : (x.routeId == r0.id && x.status == PackageStatus.DELIVERED)
                  = false := by
                simp [hxrid, Ne.symm h0']
              have hx1 : (x.routeId == r0.id && body.status == PackageStatus.DELIVERED)
                  = false := by
                simp [hxrid, Ne.symm h0']
              have hcc := hcnt r0.id
              rw [hx0, hx1] at hcc
              simp only [Bool.false_eq_true, if_false, if_true, ite_false, ite_true] at hcc
              rw [← List.countP_eq_length_filter]
              have hd0' : r0.deliveredPackages =
                  (db.packages.countP (fun p => p.routeId == r0.id &&
                    p.status == PackageStatus.DELIVERED) : Int) := by
                simpa [deliveredPackageCount, ← List.countP_eq_length_filter] using hd0
              omega
        · refine ⟨?_, hids.2.1, ?_⟩
          · show ((db.routes.map (fun rr => if rr.id == routeId then
                { rr with deliveredPackages := rr.deliveredPackages + 1 } else rr)).map
                Route.id).Nodup
            rw [map_key_map_ite Route.id routeId
              (fun rr => { rr with deliveredPackages := rr.deliveredPackages + 1 })
              (fun a => rfl) db.routes]
            exact hids.1
          · show ((db.packages.map (fun q => if q.id == packageId then
                applyPackageData (mkPackageData body x now) q else q)).map
                Package.id).Nodup
            rw [map_key_map_ite Package.id packageId
              (applyPackageData (mkPackageData body x now)) (fun a => rfl) db.packages]
            exact hids.2.2
      · have h1 : updatePackageStatus userId routeId packageId body now none db
            = (.ok (applyPackageData (mkPackageData body x now) x),
               { db with
                 packages := db.packages.map (fun q => if q.id == packageId then
                   applyPackageData (mkPackageData body x now) q else q) }) := by
          simp only [updatePackageStatus, hr, hs, execTxn, updatePackageWrites, hst1, hinc,
            decide_False, Bool.false_eq_true, if_false, ite_false, List.append_nil,
            applyWrites, List.foldl_cons, List.foldl_nil]
        have hstatus_eq : (x.status == PackageStatus.DELIVERED)
            = (body.status == PackageStatus.DELIVERED) := by
          by_cases hbs : body.status = PackageStatus.DELIVERED
          · have hxs : x.status = PackageStatus.DELIVERED := by
              by_contra hxs
              exact hinc ⟨hbs, hxs⟩
            simp [hbs, hxs]
          · have hxs : x.status ≠ PackageStatus.DELIVERED := fun h => hbs (hmono' h)
            simp [hbs, hxs]
        rw [h1]
        constructor
        · intro r' hr'
          obtain ⟨hc0, hd0⟩ := hsync r' hr'
          constructor
          · show r'.completedStops =
              ((db.stops.filter (fun s => s.routeId == r'.id &&
                s.status == StopStatus.COMPLETED)).length : Int)
            simpa [completedStopCount] using hc0
          · show r'.deliveredPackages =
              (((db.packages.map (fun q => if q.id == packageId then
                  applyPackageData (mkPackageData body x now) q else q)).filter
                (fun p => p.routeId == r'.id &&
                  p.status == PackageStatus.DELIVERED)).length : Int)
            have hcc := hcnt r'.id
            rw [hstatus_eq] at hcc
            rw [← List.countP_eq_length_filter]
            have hd0' : r'.deliveredPackages =
                (db.packages.countP (fun p => p.routeId == r'.id &&
                  p.status == PackageStatus.DELIVERED) : Int) := by
              simpa [deliveredPackageCount, ← List.countP_eq_length_filter] using hd0
            omega
        · refine ⟨hids.1, hids.2.1, ?_⟩
          show ((db.packages.map (fun q => if q.id == packageId then
              applyPackageData (mkPackageData body x now) q else q)).map
              Package.id).Nodup
          rw [map_key_map_ite Package.id packageId
            (applyPackageData (mkPackageData body x now)) (fun a => rfl) db.packages]
          exact hids.2.2

/-- A package-table row update that does not change the DELIVERED indicator
of the targeted row preserves the invariant. -/
theorem packages_update_nobump_preserves (db : DB) (pkgId : Nat) (f : Package → Package)
    (hids : uniqueIds db) (hsync : countersInSync db)
    (x : Package) (hxmem : x ∈ db.packages) (hxid : x.id = pkgId)
    (hfid : ∀ a, (f a).id = a.id)
    (hind : ∀ rid : Nat, ((f x).routeId == rid && (f x).status == PackageStatus.DELIVERED)
        = (x.routeId == rid && x.status == PackageStatus.DELIVERED)) :
    countersInSync { db with packages := db.packages.map fun q =>
      if q.id == pkgId then f q else q } ∧
    uniqueIds { db with packages := db.packages.map fun q =>
      if q.id == pkgId then f q else q } := by
  constructor
  · intro r' hr'
    obtain ⟨hc0, hd0⟩ := hsync r' hr'
    constructor
    · show r'.completedStops =
        ((db.stops.filter (fun s => s.routeId == r'.id &&
          s.status == StopStatus.COMPLETED)).length : Int)
      simpa [completedStopCount] using hc0
    · show r'.deliveredPackages =
        (((db.packages.map (fun q => if q.id == pkgId then f q else q)).filter
          (fun p => p.routeId == r'.id &&
            p.status == PackageStatus.DELIVERED)).length : Int)
      have hcc : (db.packages.map fun q => if q.id == pkgId then f q else q).countP
            (fun p => p.routeId == r'.id && p.status == PackageStatus.DELIVERED)
          + (if (x.routeId == r'.id && x.status == PackageStatus.DELIVERED) = true
             then 1 else 0)
          = db.packages.countP
              (fun p => p.routeId == r'.id && p.status == PackageStatus.DELIVERED)
          + (if ((f x).routeId == r'.id && (f x).status == PackageStatus.DELIVERED) = true
             then 1 else 0) :=
        countP_map_ite_key Package.id pkgId f
          (fun p => p.routeId == r'.id && p.status == PackageStatus.DELIVERED)
          db.packages hids.2.2 x hxmem hxid
      rw [hind r'.id] at hcc
      rw [← List.countP_eq_length_filter]
      have hd0' : r'.deliveredPackages =
          (db.packages.countP (fun p => p.routeId == r'.id &&
            p.status == PackageStatus.DELIVERED) : Int) := by
        simpa [deliveredPackageCount, ← List.countP_eq_length_filter] using hd0
      omega
  · refine ⟨hids.1, hids.2.1, ?_⟩
    show ((db.packages.map (fun q => if q.id == pkgId then f q else q)).map
        Package.id).Nodup
    rw [map_key_map_ite Package.id pkgId f hfid db.packages]
    exact hids.2.2

/-- A package-table row update that turns the targeted row into DELIVERED
(from a non-DELIVERED status) together with the deliveredPackages bump on the
owning route preserves the invariant. -/
theorem packages_update_bump_preserves (db : DB) (pkgId routeId : Nat)
    (f : Package → Package)
    (hids : uniqueIds db) (hsync : countersInSync db)
    (x : Package) (hxmem : x ∈ db.packages) (hxid : x.id = pkgId)
    (hfid : ∀ a, (f a).id = a.id)
    (hxrid : x.routeId = routeId) (hfrid : (f x).routeId = x.routeId)
    (hxold : (x.status == PackageStatus.DELIVERED) = false)
    (hxnew : ((f x).status == PackageStatus.DELIVERED) = true) :
    countersInSync { db with
      packages := db.packages.map fun q => if q.id == pkgId then f q else q
      routes := db.routes.map fun rr => if rr.id == routeId then
        { rr with deliveredPackages := rr.deliveredPackages + 1 } else rr } ∧
    uniqueIds { db with
      packages := db.packages.map fun q => if q.id == pkgId then f q else q
      routes := db.routes.map fun rr => if rr.id == routeId then
        { rr with deliveredPackages := rr.deliveredPackages + 1 } else rr } := by
  constructor
  · intro r' hr'
    obtain ⟨r0, hr0, rfl⟩ := List.mem_map.mp hr'
    obtain ⟨hc0, hd0⟩ := hsync r0 hr0
    have hcc : (db.packages.map fun q => if q.id == pkgId then f q else q).countP
          (fun p => p.routeId == r0.id && p.status == PackageStatus.DELIVERED)
        + (if (x.routeId == r0.id && x.status == PackageStatus.DELIVERED) = true
           then 1 else 0)
        = db.packages.countP
            (fun p => p.routeId == r0.id && p.status == PackageStatus.DELIVERED)
        + (if ((f x).routeId == r0.id && (f x).status == PackageStatus.DELIVERED) = true
           then 1 else 0) :=
      countP_map_ite_key Package.id pkgId f
        (fun p => p.routeId == r0.id && p.status == PackageStatus.DELIVERED)
        db.packages hids.2.2 x hxmem hxid
    by_cases h0 : (r0.id == routeId) = true
    · have h0' : r0.id = routeId := by simpa using h0
      rw [if_pos h0]
      constructor
      · show r0.completedStops =
          ((db.stops.filter (fun s => s.routeId == r0.id &&
            s.status == StopStatus.COMPLETED)).length : Int)
        simpa [completedStopCount] using hc0
      · show r0.deliveredPackages + 1 =
          (((db.packages.map (fun q => if q.id == pkgId then f q else q)).filter
            (fun p => p.routeId == r0.id &&
              p.status == PackageStatus.DELIVERED)).length : Int)
        have hx0 : (x.routeId == r0.id && x.status == PackageStatus.DELIVERED)
            = false := by
          rw [hxold, Bool.and_false]
        have hx1 : ((f x).routeId == r0.id && (f x).status == PackageStatus.DELIVERED)
            = true := by
          rw [hxnew, Bool.and_true, hfrid, hxrid, h0']
          simp
        rw [hx0, hx1] at hcc
        simp only [Bool.false_eq_true, if_false, if_true, ite_false, ite_true] at hcc
        rw [← List.countP_eq_length_filter]
        have hd0' : r0.deliveredPackages =
            (db.packages.countP (fun p => p.routeId == r0.id &&
              p.status == PackageStatus.DELIVERED) : Int) := by
          simpa [deliveredPackageCount, ← List.countP_eq_length_filter] using hd0
        omega
    · have h0' : r0.id ≠ routeId := by simpa using h0
      rw [if_neg h0]
      constructor
      · show r0.completedStops =
          ((db.stops.filter (fun s => s.routeId == r0.id &&
            s.status == StopStatus.COMPLETED)).length : Int)
        simpa [completedStopCount] using hc0
      · show r0.deliveredPackages =
          (((db.packages.map (fun q => if q.id == pkgId then f q else q)).filter
            (fun p => p.routeId == r0.id &&
              p.status == PackageStatus.DELIVERED)).length : Int)
        have hx0 : (x.routeId == r0.id && x.status == PackageStatus.DELIVERED)
            = false := by
          rw [hxold, Bool.and_false]
        have hx1 : ((f x).routeId == r0.id && (f x).status == PackageStatus.DELIVERED)
            = false := by
          rw [hfrid, hxrid]
          have : (routeId == r0.id) = false := by
            simp [Ne.symm h0']
          rw [this, Bool.false_and]
        rw [hx0, hx1] at hcc
        rw [← List.countP_eq_length_filter]
        have hd0' : r0.deliveredPackages =
            (db.packages.countP (fun p => p.routeId == r0.id &&
              p.status == PackageStatus.DELIVERED) : Int) := by
          simpa [deliveredPackageCount, ← List.countP_eq_length_filter] using hd0
        omega
  · refine ⟨?_, hids.2.1, ?_⟩
    · show ((db.routes.map (fun rr => if rr.id == routeId then
          { rr with deliveredPackages := rr.deliveredPackages + 1 } else rr)).map
          Route.id).Nodup
      rw [map_key_map_ite Route.id routeId
        (fun rr => { rr with deliveredPackages := rr.deliveredPackages + 1 })
        (fun a => rfl) db.routes]
      exact hids.1
    · show ((db.packages.map (fun q => if q.id == pkgId then f q else q)).map
          Package.id).Nodup
      rw [map_key_map_ite Package.id pkgId f hfid db.packages]
      exact hids.2.2

/-- A barcode scan preserves the counter invariant and key uniqueness:
the progression maps DELIVERED to itself, so a scan never leaves DELIVERED,
and the deliveredPackages bump happens exactly on the step into DELIVERED. -/
theorem scanPackage_preserves (userId routeId : Nat) (barcode : String) (now : Nat)
    (db : DB) (hids : uniqueIds db) (hsync : countersInSync db) :
    countersInSync (scanPackage userId routeId barcode now none db).2 ∧
    uniqueIds (scanPackage userId routeId barcode now none db).2 := by
  cases hr : findRoute db routeId userId with
  | none =>
    simp only [scanPackage, hr]
    exact ⟨hsync, hids⟩
  | some r =>
    cases hs : findPackageByBarcode db routeId barcode with
    | none =>
      simp only [scanPackage, hr, hs]
      exact ⟨hsync, hids⟩
    | some x =>
      have hsx : db.packages.find?
          (fun p => p.routeId == routeId && p.barcode == some barcode) = some x := by
        simpa [findPackageByBarcode] using hs
      have hxmem : x ∈ db.packages := List.mem_of_find?_eq_some hsx
      have hpred := List.find?_some hsx
      rw [Bool.and_eq_true] at hpred
      have hxrid : x.routeId = routeId := by simpa using hpred.1
      cases hst : x.status with
      | PENDING =>
        have h1 : (scanPackage userId routeId barcode now none db).2
            = { db with packages := db.packages.map fun q => if q.id == x.id then
                applyScanData { status := PackageStatus.PENDING, deliveredAt := none } q
                else q } := by
          simp [scanPackage, hr, hs, hst, SCAN_PROGRESSION, execTxn, applyWrites, scanWrites]
        rw [h1]
        exact packages_update_nobump_preserves db x.id _ hids hsync x hxmem rfl
          (fun a => rfl) (by intro rid; rw [hst]; try rfl)
      | SCANNED_IN =>
        have h1 : (scanPackage userId routeId barcode now none db).2
            = { db with packages := db.packages.map fun q => if q.id == x.id then
                (applyScanData
                  { status := PackageStatus.OUT_FOR_DELIVERY, deliveredAt := none } q)
                else q } := by
          simp [scanPackage, hr, hs, hst, SCAN_PROGRESSION, execTxn, applyWrites, scanWrites]
        rw [h1]
        exact packages_update_nobump_preserves db x.id _ hids hsync x hxmem rfl
          (fun a => rfl) (by intro rid; rw [hst]; try rfl)
      | OUT_FOR_DELIVERY =>
        have h1 : (scanPackage userId routeId barcode now none db).2
            = { db with
                packages := db.packages.map fun q => if q.id == x.id then
                  (applyScanData
                    { status := PackageStatus.DELIVERED, deliveredAt := some now } q)
                  else q
                routes := db.routes.map fun rr => if rr.id == routeId then
                  { rr with deliveredPackages := rr.deliveredPackages + 1 } else rr } := by
          simp [scanPackage, hr, hs, hst, SCAN_PROGRESSION, execTxn, applyWrites, scanWrites]
        rw [h1]
        exact packages_update_bump_preserves db x.id routeId _ hids hsync x hxmem rfl
          (fun a => rfl) hxrid rfl (by rw [hst]; rfl) rfl
      | DELIVERED =>
        have h1 : (scanPackage userId routeId barcode now none db).2
            = { db with packages := db.packages.map fun q => if q.id == x.id then
                applyScanData { status := PackageStatus.DELIVERED, deliveredAt := none } q
                else q } := by
          simp [scanPackage, hr, hs, hst, SCAN_PROGRESSION, execTxn, applyWrites, scanWrites]
        rw [h1]
        exact packages_update_nobump_preserves db x.id _ hids hsync x hxmem rfl
          (fun a => rfl) (by intro rid; rw [hst]; try rfl)
      | RETURNED =>
        have h1 : (scanPackage userId routeId barcode now none db).2
            = { db with packages := db.packages.map fun q => if q.id == x.id then
                applyScanData { status := PackageStatus.RETURNED, deliveredAt := none } q
                else q } := by
          simp [scanPackage, hr, hs, hst, SCAN_PROGRESSION, execTxn, applyWrites, scanWrites]
        rw [h1]
        exact packages_update_nobump_preserves db x.id _ hids hsync x hxmem rfl
          (fun a => rfl) (by intro rid; rw [hst]; try rfl)
      | DAMAGED =>
        have h1 : (scanPackage userId routeId barcode now none db).2
            = { db with packages := db.packages.map fun q => if q.id == x.id then
                applyScanData { status := PackageStatus.DAMAGED, deliveredAt := none } q
                else q } := by
          simp [scanPackage, hr, hs, hst, SCAN_PROGRESSION, execTxn, applyWrites, scanWrites]
        rw [h1]
        exact packages_update_nobump_preserves db x.id _ hids hsync x hxmem rfl
          (fun a => rfl) (by intro rid; rw [hst]; try rfl)

/-- Any monotone sequence of status updates preserves the counter invariant
and key uniqueness. -/
theorem applyEvents_preserves (es : List Event) : ∀ (db : DB),
    uniqueIds db → countersInSync db → monotoneAlong es db = true →
    countersInSync (applyEvents es db) ∧ uniqueIds (applyEvents es db) := by
  induction es with
  | nil =>
    intro db hids hsync _
    exact ⟨hsync, hids⟩
  | cons e es ih =>
    intro db hids hsync hmono
    rw [monotoneAlong, Bool.and_eq_true] at hmono
    have hstep : countersInSync (applyEvent e db) ∧ uniqueIds (applyEvent e db) := by
      cases e with
      | stopUpd userId routeId stopId body now =>
        refine updateStopStatus_preserves userId routeId stopId body now db hids hsync ?_
        intro hne x hx hxst
        have hm := hmono.1
        simp only [eventMonotone] at hm
        cases hfr : findRoute db routeId userId with
        | none => exact absurd hfr hne
        | some rr =>
          rw [hfr, hx] at hm
          simp only [hxst, beq_self_eq_true, Bool.not_true, Bool.false_or,
            beq_iff_eq] at hm
          exact hm
      | pkgUpd userId routeId packageId body now =>
        refine updatePackageStatus_preserves userId routeId packageId body now db
          hids hsync ?_
        intro hne x hx hxst
        have hm := hmono.1
        simp only [eventMonotone] at hm
        cases hfr : findRoute db routeId userId with
        | none => exact absurd hfr hne
        | some rr =>
          rw [hfr, hx] at hm
          simp only [hxst, beq_self_eq_true, Bool.not_true, Bool.false_or,
            beq_iff_eq] at hm
          exact hm
      | scan userId routeId barcode now =>
        exact scanPackage_preserves userId routeId barcode now db hids hsync
    exact ih (applyEvent e db) hstep.2 hstep.1 hmono.2

/-- C1 counterexample: the counters and counts start in sync, a stop is
posted COMPLETED and then moved back to PENDING; completedStops stays 1
(never decremented) while the count of COMPLETED stops is 0, so the
at-all-times equality fails under this sequence of status updates. -/
theorem counters_desync_counterexample :
    (let db0 : DB :=
      { routes := [{ id := 0, userId := 0, name := "R" }]
        stops := [{ id := 1, routeId := 0, address := "A", sequence := 1 }]
        nextId := 2 }
    let es : List Event :=
      [.stopUpd 0 0 1 { status := StopStatus.COMPLETED } 5,
       .stopUpd 0 0 1 { status := StopStatus.PENDING } 6]
    uniqueIds db0 ∧ countersInSync db0 ∧
    (applyEvents es db0).routes.map Route.completedStops = [1] ∧
    completedStopCount (applyEvents es db0) 0 = 0 ∧
    ¬ countersInSync (applyEvents es db0)) := by
  simp only [uniqueIds, countersInSync]
  decide

/-- C1 amended: each stop/package status update increments the route counter
exactly once per transition into the terminal status, decided by comparing
the previous status with the new one; and the counters stay equal to the
child-row counts under any sequence of status updates that never moves a stop
out of COMPLETED nor a package out of DELIVERED (repeated terminal posts
included — no double counting). A sequence that does move a row out of its
terminal status can break the equality, since the counters never decrement. -/
theorem counters_increment_once_and_stay_in_sync (es : List Event) (db : DB)
    (hids : uniqueIds db) (hsync : countersInSync db)
    (hmono : monotoneAlong es db = true) :
    (countersInSync (applyEvents es db) ∧ uniqueIds (applyEvents es db)) ∧
    (∀ userId routeId stopId body now r x,
      findRoute db routeId userId = some r → findStop db stopId routeId = some x →
      (updateStopStatus userId routeId stopId body now none db).2.routes
        = (if body.status = StopStatus.COMPLETED ∧ x.status ≠ StopStatus.COMPLETED
           then db.routes.map (fun rr => if rr.id == routeId then
             { rr with completedStops := rr.completedStops + 1 } else rr)
           else db.routes)) ∧
    (∀ userId routeId packageId body now r x,
      findRoute db routeId userId = some r → findPackage db packageId routeId = some x →
      (updatePackageStatus userId routeId packageId body now none db).2.routes
        = (if body.status = PackageStatus.DELIVERED ∧ x.status ≠ PackageStatus.DELIVERED
           then db.routes.map (fun rr => if rr.id == routeId then
             { rr with deliveredPackages := rr.deliveredPackages + 1 } else rr)
           else db.routes)) := by
  refine ⟨applyEvents_preserves es db hids hsync hmono, ?_, ?_⟩
  · intro userId routeId stopId body now r x hr hx
    have hst1 : (mkStopData body x now).status = body.status := rfl
    by_cases hinc : body.status = StopStatus.COMPLETED ∧ x.status ≠ StopStatus.COMPLETED
    · rw [if_pos hinc]
      simp only [updateStopStatus, hr, hx, execTxn, updateStopWrites, hst1, hinc.1,
        hinc.2, ne_eq, not_false_eq_true, and_self, and_true, true_and, if_true,
        ite_true, applyWrites, List.cons_append, List.nil_append,
        List.foldl_cons, List.foldl_nil]
    · rw [if_neg hinc]
      simp only [updateStopStatus, hr, hx, execTxn, updateStopWrites, hst1, hinc,
        if_false, ite_false, List.append_nil, applyWrites,
        List.foldl_cons, List.foldl_nil]
  · intro userId routeId packageId body now r x hr hx
    have hst1 : (mkPackageData body x now).status = body.status := rfl
    by_cases hinc : body.status = PackageStatus.DELIVERED ∧
        x.status ≠ PackageStatus.DELIVERED
    · rw [if_pos hinc]
      simp only [updatePackageStatus, hr, hx, execTxn, updatePackageWrites, hst1, hinc.1,
        hinc.2, ne_eq, not_false_eq_true, and_self, and_true, true_and, decide_True,
        if_true, ite_true, applyWrites, List.cons_append, List.nil_append,
        List.foldl_cons, List.foldl_nil]
    · rw [if_neg hinc]
      simp only [updatePackageStatus, hr, hx, execTxn, updatePackageWrites, hst1, hinc,
        decide_False, Bool.false_eq_true, if_false, ite_false, List.append_nil,
        applyWrites, List.foldl_cons, List.foldl_nil]

/-- C1 witness: the amended theorem applied to a double COMPLETED post on a
one-stop route (a monotone sequence): the invariant still holds after it. -/
theorem counters_increment_once_and_stay_in_sync_witness :
    countersInSync (applyEvents
      [.stopUpd 0 0 1 { status := StopStatus.COMPLETED } 5,
       .stopUpd 0 0 1 { status := StopStatus.COMPLETED } 6]
      { routes := [{ id := 0, userId := 0, name := "R" }]
        stops := [{ id := 1, routeId := 0, address := "A", sequence := 1 }]
        nextId := 2 }) :=
  (counters_increment_once_and_stay_in_sync
    [.stopUpd 0 0 1 { status := StopStatus.COMPLETED } 5,
     .stopUpd 0 0 1 { status := StopStatus.COMPLETED } 6]
    { routes := [{ id := 0, userId := 0, name := "R" }]
      stops := [{ id := 1, routeId := 0, address := "A", sequence := 1 }]
      nextId := 2 }
    (by simp only [uniqueIds]; decide)
    (by simp only [countersInSync]; decide)
    (by decide)).1.1

end DeliveryBridge
